import Mathlib

/-
Shallow embedding of `src/app/services/environments.service.ts` (class
`EnvironmentsService`), the environment/route state-management engine.

Modelling choices:

* JavaScript arrays of routes and of custom headers are mutable objects that can be
  shared by reference (`Object.assign` copies the reference, lodash `cloneDeep`
  allocates fresh ones).  They are therefore modelled as cells of two explicit heaps
  (`Store.routeHeap`, `Store.headerHeap`); a route array is denoted by its cell index.
  Environment objects themselves are held by value in `Store.environments`: no modelled
  operation relies on sharing an environment object, and operations that in the source
  receive an environment reference that lives in the collection receive its index here.
* The external `uuid/v1` generator produces a fresh string on every call.  It is
  modelled by the counter `Store.counter`: call number `n` returns `Uuid.gen n`.
  The schemas' default `uuid: ''` is `Uuid.empty`.
* `new Date()` is modelled by the read-only clock `Store.now`; server instances
  (`instance` field, renamed `serverInstance`, a Lean keyword) by `Option Nat`.
* The rxjs update-event stream, the electron dialogs, file i/o and the alert service
  are external boundaries; `importEnvironmentsFile` is modelled from the point where
  the chosen file has been read and parsed, and returns the alert it raises.
* `routesTotal` is a JavaScript number that is incremented and decremented; it is
  modelled as `Int`.
* The field `endpointPrefix` of the environment type is named `endpointPfx` here.
-/

namespace EnvironmentsService

/-- Model of a uuid string: either the empty string `''` (the schemas' default) or the
result of the `n`-th call of the `uuid/v1` generator. -/
inductive Uuid where
  | empty : Uuid
  | gen : Nat → Uuid
deriving DecidableEq, Repr

/-- The external `uuid()` generator: fresh value, bumped counter. -/
def genUuid (c : Nat) : Uuid × Nat := (Uuid.gen c, c + 1)

/-- `CustomHeaderType` (app/types/route.type). -/
structure CustomHeader where
  uuid : Uuid
  key : String
  value : String
deriving DecidableEq, Repr

/-- `RouteType` (app/types/route.type); `customHeaders` is a reference into
`Store.headerHeap`. -/
structure RouteObj where
  uuid : Uuid
  method : String
  endpoint : String
  body : String
  latency : Nat
  statusCode : String
  customHeaders : Nat
  file : Option String
  duplicates : List Nat
deriving DecidableEq, Repr

/-- `EnvironmentType` (app/types/environment.type); `routes` is a reference into
`Store.routeHeap`; `serverInstance` is the source's `instance` field. -/
structure EnvObj where
  uuid : Uuid
  running : Bool
  serverInstance : Option Nat
  name : String
  endpointPfx : String
  latency : Nat
  port : Nat
  routes : Nat
  startedAt : Option Nat
  modifiedAt : Option Nat
  duplicates : List Nat
  needRestart : Bool
  proxyMode : Bool
  proxyHost : String
  https : Bool
  cors : Bool
deriving DecidableEq, Repr

/-- The service state: the two array heaps, `this.environments`, `this.routesTotal`,
the uuid-generator counter and the clock. -/
structure Store where
  headerHeap : List (List CustomHeader)
  routeHeap : List (List RouteObj)
  environments : List EnvObj
  routesTotal : Int
  counter : Nat
  now : Nat
deriving DecidableEq, Repr

/-- Fallback value for out-of-range header reads (never reached on valid indices). -/
def headerDefault : CustomHeader := { uuid := Uuid.empty, key := "", value := "" }

/-- Fallback value for out-of-range route reads (never reached on valid indices). -/
def routeObjDefault : RouteObj :=
  { uuid := Uuid.empty, method := "", endpoint := "", body := "", latency := 0,
    statusCode := "", customHeaders := 0, file := none, duplicates := [] }

/-- Fallback value for out-of-range environment reads (never reached on valid
indices). -/
def envObjDefault : EnvObj :=
  { uuid := Uuid.empty, running := false, serverInstance := none, name := "",
    endpointPfx := "", latency := 0, port := 0, routes := 0, startedAt := none,
    modifiedAt := none, duplicates := [], needRestart := false, proxyMode := false,
    proxyHost := "", https := false, cors := true }

/-- `this.environmentSchema` (lines 34-51).  The schema's `routes: []` array reference
is always overridden with a fresh array at the use sites modelled here, so it is
represented by the dangling reference `0`. -/
def environmentSchema : EnvObj :=
  { uuid := Uuid.empty, running := false, serverInstance := none, name := "",
    endpointPfx := "", latency := 0, port := 3000, routes := 0, startedAt := none,
    modifiedAt := none, duplicates := [], needRestart := false, proxyMode := false,
    proxyHost := "", https := false, cors := true }

/-- `this.routeSchema` (lines 53-63); same remark for `customHeaders: []`. -/
def routeSchema : RouteObj :=
  { uuid := Uuid.empty, method := "get", endpoint := "",
    body := "Environment is running.", latency := 0, statusCode := "200",
    customHeaders := 0, file := none, duplicates := [] }

/-- `this.customHeadersSchema` (line 65). -/
def customHeadersSchema : CustomHeader :=
  { uuid := Uuid.empty, key := "Content-Type", value := "text/plain" }

/-- `checkRoutesDuplicates` (lines 221-243) as a function of the routes array it
updates in place: every route's `duplicates` becomes the increasing list of the indices
of the other routes with the same `endpoint` and `method` (the source's `filter`
pushes `otherRouteIndex` in traversal order).  Only the `duplicates` field is written
and only `endpoint`/`method` are read, so the batch update equals the in-place one. -/
def checkRoutesDuplicates (routes : List RouteObj) : List RouteObj :=
  (List.range routes.length).map (fun firstRouteIndex =>
    let firstRoute := routes.getD firstRouteIndex routeObjDefault
    { firstRoute with duplicates :=
        (List.range routes.length).filter (fun otherRouteIndex =>
          if otherRouteIndex == firstRouteIndex then false
          else
            (routes.getD otherRouteIndex routeObjDefault).endpoint == firstRoute.endpoint
              && (routes.getD otherRouteIndex routeObjDefault).method == firstRoute.method) })

/-- `checkEnvironmentsDuplicates` (lines 248-273) as a function of
`this.environments`: same shape as the route pass, keyed on `port`. -/
def checkEnvironmentsDuplicates (environments : List EnvObj) : List EnvObj :=
  (List.range environments.length).map (fun environmentIndex =>
    let environment := environments.getD environmentIndex envObjDefault
    { environment with duplicates :=
        (List.range environments.length).filter (fun otherEnvironmentIndex =>
          if otherEnvironmentIndex == environmentIndex then false
          else
            (environments.getD otherEnvironmentIndex envObjDefault).port == environment.port) })

/-- `addEnvironment` (lines 112-134).  Note: the new route is
`Object.assign({}, routeSchema, { customHeaders: [...] })`, so its uuid stays the
schema's `''`; only the header and the environment get `uuid()` (in that evaluation
order).  Returns the new environment's index (`push` minus one). -/
def addEnvironment (s : Store) : Store × Nat :=
  let (headerUuid, c1) := genUuid s.counter
  let newHeader := { customHeadersSchema with uuid := headerUuid }
  let headerRef := s.headerHeap.length
  let newRoute := { routeSchema with customHeaders := headerRef }
  let routesRef := s.routeHeap.length
  let (envUuid, c2) := genUuid c1
  let newEnvironment :=
    { environmentSchema with
        uuid := envUuid, name := "New environment", port := 3000,
        routes := routesRef, modifiedAt := some s.now }
  ({ s with headerHeap := s.headerHeap ++ [[newHeader]],
            routeHeap := s.routeHeap ++ [[newRoute]],
            environments := s.environments ++ [newEnvironment],
            routesTotal := s.routesTotal + 1,
            counter := c2 },
   s.environments.length)

/-- `addRoute` (lines 141-149); the environment reference argument is the index of an
environment of the collection.  Same remark as `addEnvironment`: the route keeps the
schema's empty uuid.  Returns the new route's index. -/
def addRoute (s : Store) (environmentIndex : Nat) : Store × Nat :=
  let environment := s.environments.getD environmentIndex envObjDefault
  let (headerUuid, c1) := genUuid s.counter
  let newHeader := { customHeadersSchema with uuid := headerUuid }
  let headerRef := s.headerHeap.length
  let newRoute := { routeSchema with customHeaders := headerRef }
  let cell := s.routeHeap.getD environment.routes []
  ({ s with headerHeap := s.headerHeap ++ [[newHeader]],
            routeHeap := s.routeHeap.set environment.routes (cell ++ [newRoute]),
            routesTotal := s.routesTotal + 1,
            counter := c1 },
   cell.length)

/-- `removeRoute` (lines 157-168): splice the route out, decrement `routesTotal`,
then synchronously recompute the environment's route duplicates. -/
def removeRoute (s : Store) (environmentIndex routeIndex : Nat) : Store :=
  let environment := s.environments.getD environmentIndex envObjDefault
  let cell := s.routeHeap.getD environment.routes []
  { s with routeHeap :=
             s.routeHeap.set environment.routes (checkRoutesDuplicates (cell.eraseIdx routeIndex)),
           routesTotal := s.routesTotal - 1 }

/-- `removeEnvironment` (lines 175-189): splice the environment out and recompute the
environment duplicates.  The `serverService.stop` call on a running environment is an
external boundary with no effect on the modelled state. -/
def removeEnvironment (s : Store) (environmentIndex : Nat) : Store :=
  { s with environments := checkEnvironmentsDuplicates (s.environments.eraseIdx environmentIndex) }

/-- lodash `cloneDeep(this.environments[environmentIndex].routes)` in the heap model:
a fresh header cell per route (same contents) and a fresh route cell; returns the new
route-array reference. -/
def cloneDeepRoutes (s : Store) (cell : List RouteObj) : Store × Nat :=
  let newCell := (List.range cell.length).map (fun k =>
    { cell.getD k routeObjDefault with customHeaders := s.headerHeap.length + k })
  ({ s with headerHeap := s.headerHeap ++ cell.map (fun r => s.headerHeap.getD r.customHeaders []),
            routeHeap := s.routeHeap ++ [newCell] },
   s.routeHeap.length)

/-- `duplicateEnvironment` (lines 335-359): copy the environment, reset the runtime
fields and `duplicates`, fresh environment uuid, name suffixed with " (copy)",
deep-copied routes, `routesTotal` grown by the route count, appended at the end;
returns the new index. -/
def duplicateEnvironment (s : Store) (environmentIndex : Nat) : Store × Nat :=
  let orig := s.environments.getD environmentIndex envObjDefault
  let cell := s.routeHeap.getD orig.routes []
  let (envUuid, c1) := genUuid s.counter
  let (s1, newRoutesRef) := cloneDeepRoutes s cell
  let newEnvironment :=
    { orig with serverInstance := none, running := false, uuid := envUuid,
                name := orig.name ++ " (copy)", startedAt := none, modifiedAt := none,
                duplicates := [], needRestart := false, routes := newRoutesRef }
  ({ s1 with environments := s.environments ++ [newEnvironment],
             routesTotal := s.routesTotal + (cell.length : Int),
             counter := c1 },
   s.environments.length)

/-- `duplicateRoute` (lines 368-377): deep-copy the route (fresh header cell), fresh
route uuid, `duplicates` reset, pushed at the end of the same routes array; returns
the new route's index. -/
def duplicateRoute (s : Store) (environmentIndex routeIndex : Nat) : Store × Nat :=
  let environment := s.environments.getD environmentIndex envObjDefault
  let cell := s.routeHeap.getD environment.routes []
  let orig := cell.getD routeIndex routeObjDefault
  let (routeUuid, c1) := genUuid s.counter
  let headerRef := s.headerHeap.length
  let newRoute := { orig with uuid := routeUuid, duplicates := [], customHeaders := headerRef }
  ({ s with headerHeap := s.headerHeap ++ [s.headerHeap.getD orig.customHeaders []],
            routeHeap := s.routeHeap.set environment.routes (cell ++ [newRoute]),
            routesTotal := s.routesTotal + 1,
            counter := c1 },
   cell.length)

/-- A route as it appears in persisted/exported/imported JSON data: the header array
is materialised (JSON data shares no structure with the live heaps). -/
structure PersistedRoute where
  uuid : Uuid
  method : String
  endpoint : String
  body : String
  latency : Nat
  statusCode : String
  customHeaders : List CustomHeader
  file : Option String
  duplicates : List Nat
deriving DecidableEq, Repr

/-- An environment as it appears in persisted/exported/imported JSON data: the four
transient runtime fields (`running`, `instance`, `startedAt`, `needRestart`) are
absent, the routes array is materialised. -/
structure PersistedEnvironment where
  uuid : Uuid
  name : String
  endpointPfx : String
  latency : Nat
  port : Nat
  routes : List PersistedRoute
  modifiedAt : Option Nat
  duplicates : List Nat
  proxyMode : Bool
  proxyHost : String
  https : Bool
  cors : Bool
deriving DecidableEq, Repr

/-- Fallback for out-of-range persisted-route reads. -/
def persistedRouteDefault : PersistedRoute :=
  { uuid := Uuid.empty, method := "", endpoint := "", body := "", latency := 0,
    statusCode := "", customHeaders := [], file := none, duplicates := [] }

/-- Fallback for out-of-range persisted-environment reads. -/
def persistedEnvironmentDefault : PersistedEnvironment :=
  { uuid := Uuid.empty, name := "", endpointPfx := "", latency := 0, port := 0,
    routes := [], modifiedAt := none, duplicates := [], proxyMode := false,
    proxyHost := "", https := false, cors := true }

/-- Value of lodash `cloneDeep` on a route object: the deep read-back of the route
through the heap. -/
def cloneRoute (s : Store) (r : RouteObj) : PersistedRoute :=
  { uuid := r.uuid, method := r.method, endpoint := r.endpoint, body := r.body,
    latency := r.latency, statusCode := r.statusCode,
    customHeaders := s.headerHeap.getD r.customHeaders [], file := r.file,
    duplicates := r.duplicates }

/-- One environment of the result of `cleanBeforeSave` (lines 280-294):
`cloneDeep(environment)` followed by the four `delete`s of the transient fields. -/
def cloneCleanEnvironment (s : Store) (e : EnvObj) : PersistedEnvironment :=
  { uuid := e.uuid, name := e.name, endpointPfx := e.endpointPfx, latency := e.latency,
    port := e.port, routes := (s.routeHeap.getD e.routes []).map (cloneRoute s),
    modifiedAt := e.modifiedAt, duplicates := e.duplicates, proxyMode := e.proxyMode,
    proxyHost := e.proxyHost, https := e.https, cors := e.cors }

/-- `cleanBeforeSave` (lines 280-294): sanitized deep copy of the whole collection.
It only reads the store. -/
def cleanBeforeSave (s : Store) : List PersistedEnvironment :=
  s.environments.map (cloneCleanEnvironment s)

/-- `migrateData` (lines 302-308): every migration, in order, applied to every
environment.  The `Migrations` list lives in `app/libs/migrations.lib` (not under
`src/`) and is abstracted as the `migrations` parameter. -/
def migrateData (migrations : List (PersistedEnvironment → PersistedEnvironment))
    (environments : List PersistedEnvironment) : List PersistedEnvironment :=
  migrations.foldl (fun envs migration => envs.map migration) environments

/-- `renewUUIDs` inner loop on one header list (generator calls in traversal order):
the result pairs the renewed list with the advanced generator counter. -/
def renewHeaderUUIDs (c : Nat) : List CustomHeader → List CustomHeader × Nat
  | [] => ([], c)
  | h :: t =>
    ({ h with uuid := (genUuid c).1 } :: (renewHeaderUUIDs (genUuid c).2 t).1,
     (renewHeaderUUIDs (genUuid c).2 t).2)

/-- `renewUUIDs` on one route: route uuid first, then its headers. -/
def renewRouteUUIDs (c : Nat) (r : PersistedRoute) : PersistedRoute × Nat :=
  ({ r with uuid := (genUuid c).1,
            customHeaders := (renewHeaderUUIDs (genUuid c).2 r.customHeaders).1 },
   (renewHeaderUUIDs (genUuid c).2 r.customHeaders).2)

/-- `renewUUIDs` on a routes list. -/
def renewRoutesUUIDs (c : Nat) : List PersistedRoute → List PersistedRoute × Nat
  | [] => ([], c)
  | r :: t =>
    ((renewRouteUUIDs c r).1 :: (renewRoutesUUIDs (renewRouteUUIDs c r).2 t).1,
     (renewRoutesUUIDs (renewRouteUUIDs c r).2 t).2)

/-- `renewUUIDs` on one environment: environment uuid first, then its routes. -/
def renewEnvUUIDs (c : Nat) (e : PersistedEnvironment) : PersistedEnvironment × Nat :=
  ({ e with uuid := (genUuid c).1,
            routes := (renewRoutesUUIDs (genUuid c).2 e.routes).1 },
   (renewRoutesUUIDs (genUuid c).2 e.routes).2)

/-- `renewUUIDs` (lines 315-327): unconditionally replace every uuid (environment,
route, header) with a freshly generated one. -/
def renewUUIDs (c : Nat) : List PersistedEnvironment → List PersistedEnvironment × Nat
  | [] => ([], c)
  | e :: t =>
    ((renewEnvUUIDs c e).1 :: (renewUUIDs (renewEnvUUIDs c e).2 t).1,
     (renewUUIDs (renewEnvUUIDs c e).2 t).2)

/-- `this.environments.push(...importData.data)` for one parsed environment: the JSON
object's arrays become fresh heap cells; the four transient fields are absent on the
parsed object (modelled by their quiescent values). -/
def pushPersistedEnvironment (s : Store) (p : PersistedEnvironment) : Store :=
  let newCell : List RouteObj := (List.range p.routes.length).map (fun k =>
    let r := p.routes.getD k persistedRouteDefault
    { uuid := r.uuid, method := r.method, endpoint := r.endpoint, body := r.body,
      latency := r.latency, statusCode := r.statusCode,
      customHeaders := s.headerHeap.length + k, file := r.file,
      duplicates := r.duplicates })
  let e : EnvObj :=
    { uuid := p.uuid, running := false, serverInstance := none, name := p.name,
      endpointPfx := p.endpointPfx, latency := p.latency, port := p.port,
      routes := s.routeHeap.length, startedAt := none, modifiedAt := p.modifiedAt,
      duplicates := p.duplicates, needRestart := false, proxyMode := p.proxyMode,
      proxyHost := p.proxyHost, https := p.https, cors := p.cors }
  { s with headerHeap := s.headerHeap ++ p.routes.map (fun r => r.customHeaders),
           routeHeap := s.routeHeap ++ [newCell],
           environments := s.environments ++ [e] }

/-- `this.environments.push(...importData.data)` over the whole parsed list. -/
def pushPersistedEnvironments : Store → List PersistedEnvironment → Store
  | s, [] => s
  | s, p :: rest => pushPersistedEnvironments (pushPersistedEnvironment s p) rest

/-- Alerts raised by the import flow. -/
inductive Alert where
  | importError : Alert
  | importWrongChecksum : Alert
  | importSuccess : Alert
deriving DecidableEq, Repr

/-- `ExportType` (app/types/data.type): the exported document, a data payload plus a
stored checksum (the format/version metadata plays no role here). -/
structure ExportData where
  data : List PersistedEnvironment
  checksum : Nat
deriving DecidableEq, Repr

/-- Modelled from the spec: `DataService.verifyImportChecksum`
(app/services/data.service.ts, not under src/) — "verify the stored checksum against a
freshly computed checksum of the payload".  The checksum algorithm is abstracted as
the parameter `hash`. -/
def verifyImportChecksum (hash : List PersistedEnvironment → Nat)
    (importData : ExportData) : Bool :=
  hash importData.data == importData.checksum

/-- `importEnvironmentsFile` (lines 408-436) from the point where the chosen file has
been read and parsed into `importData`: verify the checksum (abort, untouched state,
error alert on mismatch); otherwise migrate, renew every uuid, append to the live
collection, recompute environment duplicates, success alert. -/
def importEnvironmentsFile (migrations : List (PersistedEnvironment → PersistedEnvironment))
    (hash : List PersistedEnvironment → Nat) (s : Store) (importData : ExportData) :
    Store × Alert :=
  if !(verifyImportChecksum hash importData) then
    (s, Alert.importWrongChecksum)
  else
    let migrated := migrateData migrations importData.data
    let renewed := (renewUUIDs s.counter migrated).1
    let c1 := (renewUUIDs s.counter migrated).2
    let s1 := pushPersistedEnvironments { s with counter := c1 } renewed
    ({ s1 with environments := checkEnvironmentsDuplicates s1.environments },
     Alert.importSuccess)

/-- Fixture: three routes, the first two sharing `(method, endpoint)`, the third with
the same endpoint but another method. -/
def fixRoutesA : List RouteObj :=
  [{ routeSchema with endpoint := "answer" },
   { routeSchema with endpoint := "answer" },
   { routeSchema with endpoint := "answer", method := "post" }]

/-- Fixture: a store with one environment owning three mutually duplicate routes. -/
def fixStoreTriplicate : Store :=
  { headerHeap := [[{ customHeadersSchema with uuid := Uuid.gen 0 }]],
    routeHeap := [[{ routeSchema with uuid := Uuid.gen 1, endpoint := "dup" },
                   { routeSchema with uuid := Uuid.gen 2, endpoint := "dup" },
                   { routeSchema with uuid := Uuid.gen 3, endpoint := "dup" }]],
    environments := [{ environmentSchema with uuid := Uuid.gen 4, routes := 0 }],
    routesTotal := 3, counter := 5, now := 0 }

/-- Fixture: the empty store. -/
def fixStoreEmpty : Store :=
  { headerHeap := [], routeHeap := [], environments := [], routesTotal := 0,
    counter := 0, now := 0 }

/-- Fixture: a checksum function and an exported document whose stored checksum does
not match it. -/
def fixHashZero : List PersistedEnvironment → Nat := fun _ => 0

/-- Fixture: an import document carrying a wrong stored checksum. -/
def fixImportBad : ExportData := { data := [], checksum := 1 }

/-- Fixture: an import document with one environment and a matching zero checksum. -/
def fixImportGood : ExportData :=
  { data := [{ persistedEnvironmentDefault with
      name := "imported", port := 3000,
      routes := [{ persistedRouteDefault with
        endpoint := "imp", customHeaders := [customHeadersSchema] }] }],
    checksum := 0 }

/-- Every uuid stored anywhere in the service state. -/
def allUuids (s : Store) : List Uuid :=
  s.environments.map (fun e => e.uuid)
    ++ (s.routeHeap.map (fun cell => cell.map (fun r => r.uuid))).flatten
    ++ (s.headerHeap.map (fun cell => cell.map (fun h => h.uuid))).flatten

/-- `true` when the uuid was generated before counter value `c` (or is the empty
default). -/
def uuidBelow (c : Nat) : Uuid → Bool
  | Uuid.empty => true
  | Uuid.gen n => decide (n < c)

/-- Generator invariant: every uuid in the state predates the current counter, so a
fresh generation cannot collide with anything present. -/
def UuidsBelow (s : Store) : Prop :=
  ∀ u ∈ allUuids s, uuidBelow s.counter u = true

instance (s : Store) : Decidable (UuidsBelow s) := by
  unfold UuidsBelow; infer_instance

/-- Reference well-formedness: every route-array and header-array reference is a live
heap cell. -/
def WF (s : Store) : Prop :=
  (∀ e ∈ s.environments, e.routes < s.routeHeap.length) ∧
    (∀ cell ∈ s.routeHeap, ∀ r ∈ cell, r.customHeaders < s.headerHeap.length)

instance (s : Store) : Decidable (WF s) := by
  unfold WF; infer_instance

/-- The references of one environment object are live cells, and so are its routes'
header references. -/
def WFEnv (s : Store) (e : EnvObj) : Prop :=
  e.routes < s.routeHeap.length ∧
    ∀ r ∈ s.routeHeap.getD e.routes [], r.customHeaders < s.headerHeap.length

/-- All route uuids across the whole collection, environment by environment. -/
def routeUuidsOf (s : Store) : List Uuid :=
  (s.environments.map (fun e => (s.routeHeap.getD e.routes []).map (fun r => r.uuid))).flatten

/-- Route uuids are pairwise distinct within each single environment. -/
def RouteUuidsNodupPerEnv (s : Store) : Prop :=
  ∀ e ∈ s.environments, ((s.routeHeap.getD e.routes []).map (fun r => r.uuid)).Nodup

instance (s : Store) : Decidable (RouteUuidsNodupPerEnv s) := by
  unfold RouteUuidsNodupPerEnv; infer_instance

/-- All uuids of a persisted route (the route and its headers). -/
def uuidsOfPersistedRoute (r : PersistedRoute) : List Uuid :=
  r.uuid :: r.customHeaders.map (fun h => h.uuid)

/-- All uuids of a persisted environment (environment, routes, headers). -/
def uuidsOfPersisted (e : PersistedEnvironment) : List Uuid :=
  e.uuid :: (e.routes.map uuidsOfPersistedRoute).flatten

/-- Erase every uuid of a persisted route (for comparisons "equal up to uuids"). -/
def PersistedRoute.eraseUuids (r : PersistedRoute) : PersistedRoute :=
  { r with uuid := Uuid.empty,
           customHeaders := r.customHeaders.map (fun h => { h with uuid := Uuid.empty }) }

/-- Erase every uuid of a persisted environment. -/
def PersistedEnvironment.eraseUuids (e : PersistedEnvironment) : PersistedEnvironment :=
  { e with uuid := Uuid.empty, routes := e.routes.map PersistedRoute.eraseUuids }

/-- Forget the environment-level `duplicates` marker of a persisted environment. -/
def PersistedEnvironment.clearDuplicates (e : PersistedEnvironment) : PersistedEnvironment :=
  { e with duplicates := [] }

/-- Forget the `duplicates` marker of a live environment object. -/
def EnvObj.clearDuplicates (e : EnvObj) : EnvObj :=
  { e with duplicates := [] }

/-- Forget the `duplicates` marker of a live route object. -/
def RouteObj.clearDuplicates (r : RouteObj) : RouteObj :=
  { r with duplicates := [] }

end EnvironmentsService

namespace EnvironmentsService

theorem getD_map_range {α : Type} (f : Nat → α) (n i : Nat) (d : α) (h : i < n) :
    ((List.range n).map f).getD i d = f i := by
  rw [List.getD_eq_getElem _ _ (by simpa using h), List.getElem_map, List.getElem_range]

theorem length_checkRoutesDuplicates (routes : List RouteObj) :
    (checkRoutesDuplicates routes).length = routes.length := by
  simp [checkRoutesDuplicates]

theorem getD_checkRoutesDuplicates (routes : List RouteObj) (i : Nat) (d : RouteObj)
    (h : i < routes.length) :
    (checkRoutesDuplicates routes).getD i d =
      { routes.getD i routeObjDefault with duplicates :=
          (List.range routes.length).filter (fun otherRouteIndex =>
            if otherRouteIndex == i then false
            else
              (routes.getD otherRouteIndex routeObjDefault).endpoint ==
                  (routes.getD i routeObjDefault).endpoint
                && (routes.getD otherRouteIndex routeObjDefault).method ==
                  (routes.getD i routeObjDefault).method) } := by
  unfold checkRoutesDuplicates
  rw [getD_map_range _ _ _ _ h]

theorem mem_duplicates_checkRoutesDuplicates (routes : List RouteObj) (i j : Nat)
    (hi : i < routes.length) :
    j ∈ ((checkRoutesDuplicates routes).getD i routeObjDefault).duplicates ↔
      (j < routes.length ∧ j ≠ i ∧
        (routes.getD j routeObjDefault).endpoint = (routes.getD i routeObjDefault).endpoint ∧
        (routes.getD j routeObjDefault).method = (routes.getD i routeObjDefault).method) := by
  rw [getD_checkRoutesDuplicates routes i routeObjDefault hi]
  show j ∈ List.filter _ _ ↔ _
  rw [List.mem_filter, List.mem_range]
  by_cases hji : j = i
  · subst hji; simp
  · simp only [beq_iff_eq, hji, if_false, Bool.and_eq_true, beq_iff_eq]
    tauto

theorem length_checkEnvironmentsDuplicates (environments : List EnvObj) :
    (checkEnvironmentsDuplicates environments).length = environments.length := by
  simp [checkEnvironmentsDuplicates]

theorem getD_checkEnvironmentsDuplicates (environments : List EnvObj) (i : Nat) (d : EnvObj)
    (h : i < environments.length) :
    (checkEnvironmentsDuplicates environments).getD i d =
      { environments.getD i envObjDefault with duplicates :=
          (List.range environments.length).filter (fun otherEnvironmentIndex =>
            if otherEnvironmentIndex == i then false
            else
              (environments.getD otherEnvironmentIndex envObjDefault).port ==
                (environments.getD i envObjDefault).port) } := by
  unfold checkEnvironmentsDuplicates
  rw [getD_map_range _ _ _ _ h]

theorem mem_duplicates_checkEnvironmentsDuplicates (environments : List EnvObj) (i j : Nat)
    (hi : i < environments.length) :
    j ∈ ((checkEnvironmentsDuplicates environments).getD i envObjDefault).duplicates ↔
      (j < environments.length ∧ j ≠ i ∧
        (environments.getD j envObjDefault).port = (environments.getD i envObjDefault).port) := by
  rw [getD_checkEnvironmentsDuplicates environments i envObjDefault hi]
  show j ∈ List.filter _ _ ↔ _
  rw [List.mem_filter, List.mem_range]
  by_cases hji : j = i
  · subst hji; simp
  · simp only [beq_iff_eq, hji, if_false]
    tauto

theorem fields_checkRoutesDuplicates (routes : List RouteObj) (j : Nat)
    (h : j < routes.length) :
    ((checkRoutesDuplicates routes).getD j routeObjDefault).endpoint =
        (routes.getD j routeObjDefault).endpoint ∧
      ((checkRoutesDuplicates routes).getD j routeObjDefault).method =
        (routes.getD j routeObjDefault).method := by
  rw [getD_checkRoutesDuplicates _ _ _ h]
  exact ⟨rfl, rfl⟩

theorem clear_checkRoutesDuplicates (routes : List RouteObj) (j : Nat)
    (h : j < routes.length) :
    ((checkRoutesDuplicates routes).getD j routeObjDefault).clearDuplicates =
      (routes.getD j routeObjDefault).clearDuplicates := by
  rw [getD_checkRoutesDuplicates _ _ _ h]
  rfl

theorem port_checkEnvironmentsDuplicates (environments : List EnvObj) (j : Nat)
    (h : j < environments.length) :
    ((checkEnvironmentsDuplicates environments).getD j envObjDefault).port =
      (environments.getD j envObjDefault).port := by
  rw [getD_checkEnvironmentsDuplicates _ _ _ h]

theorem checkRoutesDuplicates_idem (routes : List RouteObj) :
    checkRoutesDuplicates (checkRoutesDuplicates routes) = checkRoutesDuplicates routes := by
  apply List.ext_getElem
  · rw [length_checkRoutesDuplicates]
  · intro n h1 h2
    have hn : n < routes.length := by
      simpa [length_checkRoutesDuplicates] using h2
    have hn' : n < (checkRoutesDuplicates routes).length := by
      simpa [length_checkRoutesDuplicates] using hn
    rw [← List.getD_eq_getElem _ routeObjDefault h1, ← List.getD_eq_getElem _ routeObjDefault h2,
        getD_checkRoutesDuplicates _ n _ hn', getD_checkRoutesDuplicates _ n _ hn]
    simp only [length_checkRoutesDuplicates]
    congr 1
    apply List.filter_congr
    intro j hj
    have hjlt : j < routes.length := List.mem_range.mp hj
    by_cases hji : j = n
    · simp [hji]
    · have h3 := getD_checkRoutesDuplicates routes j routeObjDefault hjlt
      simp only [beq_iff_eq, hji, if_false, h3]

theorem checkEnvironmentsDuplicates_idem (environments : List EnvObj) :
    checkEnvironmentsDuplicates (checkEnvironmentsDuplicates environments) =
      checkEnvironmentsDuplicates environments := by
  apply List.ext_getElem
  · rw [length_checkEnvironmentsDuplicates]
  · intro n h1 h2
    have hn : n < environments.length := by
      simpa [length_checkEnvironmentsDuplicates] using h2
    have hn' : n < (checkEnvironmentsDuplicates environments).length := by
      simpa [length_checkEnvironmentsDuplicates] using hn
    rw [← List.getD_eq_getElem _ envObjDefault h1, ← List.getD_eq_getElem _ envObjDefault h2,
        getD_checkEnvironmentsDuplicates _ n _ hn', getD_checkEnvironmentsDuplicates _ n _ hn]
    simp only [length_checkEnvironmentsDuplicates]
    congr 1
    apply List.filter_congr
    intro j hj
    have hjlt : j < environments.length := List.mem_range.mp hj
    by_cases hji : j = n
    · simp [hji]
    · have h3 := getD_checkEnvironmentsDuplicates environments j envObjDefault hjlt
      simp only [beq_iff_eq, hji, if_false, h3]

/-- C2: after `checkRoutesDuplicates` runs on an environment's routes, route `i`'s
`duplicates` field is exactly the set of indices of the other routes whose `method`
and `endpoint` both equal route `i`'s under exact, case-sensitive string equality
(membership characterisation); a route never lists itself; and for every pair of
in-range routes the duplicate marking is symmetric. -/
theorem checkRoutesDuplicates_marksExactDuplicates (routes : List RouteObj) (i j : Nat)
    (hi : i < routes.length) :
    (j ∈ ((checkRoutesDuplicates routes).getD i routeObjDefault).duplicates ↔
        (j < routes.length ∧ j ≠ i ∧
          (routes.getD j routeObjDefault).endpoint = (routes.getD i routeObjDefault).endpoint ∧
          (routes.getD j routeObjDefault).method = (routes.getD i routeObjDefault).method)) ∧
      i ∉ ((checkRoutesDuplicates routes).getD i routeObjDefault).duplicates ∧
      (j < routes.length →
        (j ∈ ((checkRoutesDuplicates routes).getD i routeObjDefault).duplicates ↔
          i ∈ ((checkRoutesDuplicates routes).getD j routeObjDefault).duplicates)) := by
  refine ⟨mem_duplicates_checkRoutesDuplicates routes i j hi, ?_, ?_⟩
  · intro hmem
    exact ((mem_duplicates_checkRoutesDuplicates routes i i hi).mp hmem).2.1 rfl
  · intro hj
    rw [mem_duplicates_checkRoutesDuplicates routes i j hi,
        mem_duplicates_checkRoutesDuplicates routes j i hj]
    constructor
    · rintro ⟨_, hne, hep, hme⟩
      exact ⟨hi, fun h => hne h.symm, hep.symm, hme.symm⟩
    · rintro ⟨_, hne, hep, hme⟩
      exact ⟨hj, fun h => hne h.symm, hep.symm, hme.symm⟩

/-- Witness for C2 on `fixRoutesA` with `i = 0`, `j = 1`. -/
theorem checkRoutesDuplicates_marksExactDuplicates_witness :
    (0 : Nat) < fixRoutesA.length ∧
      ((1 ∈ ((checkRoutesDuplicates fixRoutesA).getD 0 routeObjDefault).duplicates ↔
          (1 < fixRoutesA.length ∧ 1 ≠ 0 ∧
            (fixRoutesA.getD 1 routeObjDefault).endpoint =
              (fixRoutesA.getD 0 routeObjDefault).endpoint ∧
            (fixRoutesA.getD 1 routeObjDefault).method =
              (fixRoutesA.getD 0 routeObjDefault).method)) ∧
        0 ∉ ((checkRoutesDuplicates fixRoutesA).getD 0 routeObjDefault).duplicates ∧
        (1 < fixRoutesA.length →
          (1 ∈ ((checkRoutesDuplicates fixRoutesA).getD 0 routeObjDefault).duplicates ↔
            0 ∈ ((checkRoutesDuplicates fixRoutesA).getD 1 routeObjDefault).duplicates))) :=
  ⟨by decide, checkRoutesDuplicates_marksExactDuplicates fixRoutesA 0 1 (by decide)⟩

/-- C9: both duplicate-detection passes are idempotent: with no intervening mutation,
running `checkRoutesDuplicates` (resp. `checkEnvironmentsDuplicates`) twice leaves
every `duplicates` field identical to the result of running it once. -/
theorem duplicatePasses_idempotent :
    (∀ routes : List RouteObj,
        checkRoutesDuplicates (checkRoutesDuplicates routes) = checkRoutesDuplicates routes) ∧
      ∀ environments : List EnvObj,
        checkEnvironmentsDuplicates (checkEnvironmentsDuplicates environments) =
          checkEnvironmentsDuplicates environments :=
  ⟨checkRoutesDuplicates_idem, checkEnvironmentsDuplicates_idem⟩

theorem getD_set_self {α : Type} (l : List α) (i : Nat) (v d : α) (h : i < l.length) :
    (l.set i v).getD i d = v := by
  simp [List.getD_eq_getElem?_getD, List.getElem?_set_self, h]

theorem getD_set_ne {α : Type} (l : List α) (i j : Nat) (v d : α) (h : i ≠ j) :
    (l.set i v).getD j d = l.getD j d := by
  simp [List.getD_eq_getElem?_getD, List.getElem?_set_ne h]

theorem getD_eraseIdx {α : Type} (l : List α) (i k : Nat) (d : α) (hi : i < l.length)
    (hk : k < (l.eraseIdx i).length) :
    (l.eraseIdx i).getD k d = l.getD (if k < i then k else k + 1) d := by
  have hlen : (l.eraseIdx i).length = l.length - 1 := List.length_eraseIdx_of_lt hi
  by_cases h : k < i
  · simp only [if_pos h]
    rw [List.getD_eq_getElem _ _ hk, List.getD_eq_getElem _ _ (by omega)]
    exact List.getElem_eraseIdx_of_lt l i k hk h
  · simp only [if_neg h]
    rw [List.getD_eq_getElem _ _ hk, List.getD_eq_getElem _ _ (by omega)]
    exact List.getElem_eraseIdx_of_ge l i k (by omega) (by omega)

/-- C6: `removeRoute` deletes exactly the route at the given index and synchronously
recomputes that environment's route duplicates before the update event is emitted:
immediately after it returns, the remaining routes are the spliced original ones with
indices renumbered, and their `duplicates` fields satisfy the exact-duplicate
characterisation of the post-removal routes array; the environments array, the header
heap and every other route cell are untouched. -/
theorem removeRoute_recomputesDuplicates (s : Store) (environmentIndex routeIndex : Nat)
    (henv : environmentIndex < s.environments.length) (hwf : WF s)
    (hidx : routeIndex <
      (s.routeHeap.getD (s.environments.getD environmentIndex envObjDefault).routes []).length) :
    ∀ cell newCell,
      cell = s.routeHeap.getD (s.environments.getD environmentIndex envObjDefault).routes [] →
      newCell = (removeRoute s environmentIndex routeIndex).routeHeap.getD
        (s.environments.getD environmentIndex envObjDefault).routes [] →
      (newCell.length = cell.length - 1 ∧
        (∀ k, k < newCell.length →
          (newCell.getD k routeObjDefault).clearDuplicates =
            (cell.getD (if k < routeIndex then k else k + 1) routeObjDefault).clearDuplicates) ∧
        (∀ i j, i < newCell.length →
          (j ∈ (newCell.getD i routeObjDefault).duplicates ↔
            (j < newCell.length ∧ j ≠ i ∧
              (newCell.getD j routeObjDefault).endpoint =
                (newCell.getD i routeObjDefault).endpoint ∧
              (newCell.getD j routeObjDefault).method =
                (newCell.getD i routeObjDefault).method))) ∧
        (removeRoute s environmentIndex routeIndex).environments = s.environments ∧
        (removeRoute s environmentIndex routeIndex).headerHeap = s.headerHeap ∧
        (removeRoute s environmentIndex routeIndex).routeHeap.length = s.routeHeap.length ∧
        (∀ r, r ≠ (s.environments.getD environmentIndex envObjDefault).routes →
          (removeRoute s environmentIndex routeIndex).routeHeap.getD r [] =
            s.routeHeap.getD r [])) := by
  intro cell newCell hcell hnew
  have henvmem : s.environments.getD environmentIndex envObjDefault ∈ s.environments := by
    rw [List.getD_eq_getElem _ _ henv]
    exact List.getElem_mem _
  have href : (s.environments.getD environmentIndex envObjDefault).routes < s.routeHeap.length :=
    hwf.1 _ henvmem
  have hnewCell : newCell = checkRoutesDuplicates (cell.eraseIdx routeIndex) := by
    rw [hnew, hcell]
    simp only [removeRoute]
    rw [getD_set_self _ _ _ _ href]
  have hidx' : routeIndex < cell.length := by rw [hcell]; exact hidx
  have hel : (cell.eraseIdx routeIndex).length = cell.length - 1 :=
    List.length_eraseIdx_of_lt hidx'
  have hlen : newCell.length = cell.length - 1 := by
    rw [hnewCell, length_checkRoutesDuplicates, hel]
  refine ⟨hlen, ?_, ?_, rfl, rfl, by simp [removeRoute], ?_⟩
  · intro k hk
    have hk' : k < (cell.eraseIdx routeIndex).length := by
      rw [hel]; rw [hlen] at hk; exact hk
    rw [hnewCell, clear_checkRoutesDuplicates _ _ hk',
        getD_eraseIdx _ _ _ _ hidx' hk']
  · intro i j hi
    have hi' : i < (cell.eraseIdx routeIndex).length := by
      rw [hel]; rw [hlen] at hi; exact hi
    rw [hnewCell, mem_duplicates_checkRoutesDuplicates _ i j hi']
    have hlen2 : (checkRoutesDuplicates (cell.eraseIdx routeIndex)).length =
        (cell.eraseIdx routeIndex).length := length_checkRoutesDuplicates _
    constructor
    · rintro ⟨hjl, hne, hep, hme⟩
      refine ⟨by rw [hlen2]; exact hjl, hne, ?_, ?_⟩
      · rw [(fields_checkRoutesDuplicates _ j hjl).1,
            (fields_checkRoutesDuplicates _ i hi').1]
        exact hep
      · rw [(fields_checkRoutesDuplicates _ j hjl).2,
            (fields_checkRoutesDuplicates _ i hi').2]
        exact hme
    · rintro ⟨hjl, hne, hep, hme⟩
      have hjl' : j < (cell.eraseIdx routeIndex).length := by
        rw [hlen2] at hjl; exact hjl
      refine ⟨hjl', hne, ?_, ?_⟩
      · rw [(fields_checkRoutesDuplicates _ j hjl').1,
            (fields_checkRoutesDuplicates _ i hi').1] at hep
        exact hep
      · rw [(fields_checkRoutesDuplicates _ j hjl').2,
            (fields_checkRoutesDuplicates _ i hi').2] at hme
        exact hme
  · intro r hr
    simp only [removeRoute]
    rw [getD_set_ne]
    exact fun h => hr h.symm

/-- Witness for C6 on the three-duplicate fixture, removing route 0: the spec's
splice-renumbering scenario. -/
theorem removeRoute_recomputesDuplicates_witness :
    ((0 : Nat) < fixStoreTriplicate.environments.length ∧ WF fixStoreTriplicate ∧
        (0 : Nat) < (fixStoreTriplicate.routeHeap.getD
          (fixStoreTriplicate.environments.getD 0 envObjDefault).routes []).length) ∧
      (∀ cell newCell,
        cell = fixStoreTriplicate.routeHeap.getD
          (fixStoreTriplicate.environments.getD 0 envObjDefault).routes [] →
        newCell = (removeRoute fixStoreTriplicate 0 0).routeHeap.getD
          (fixStoreTriplicate.environments.getD 0 envObjDefault).routes [] →
        (newCell.length = cell.length - 1 ∧
          (∀ k, k < newCell.length →
            (newCell.getD k routeObjDefault).clearDuplicates =
              (cell.getD (if k < 0 then k else k + 1) routeObjDefault).clearDuplicates) ∧
          (∀ i j, i < newCell.length →
            (j ∈ (newCell.getD i routeObjDefault).duplicates ↔
              (j < newCell.length ∧ j ≠ i ∧
                (newCell.getD j routeObjDefault).endpoint =
                  (newCell.getD i routeObjDefault).endpoint ∧
                (newCell.getD j routeObjDefault).method =
                  (newCell.getD i routeObjDefault).method))) ∧
          (removeRoute fixStoreTriplicate 0 0).environments = fixStoreTriplicate.environments ∧
          (removeRoute fixStoreTriplicate 0 0).headerHeap = fixStoreTriplicate.headerHeap ∧
          (removeRoute fixStoreTriplicate 0 0).routeHeap.length =
            fixStoreTriplicate.routeHeap.length ∧
          (∀ r, r ≠ (fixStoreTriplicate.environments.getD 0 envObjDefault).routes →
            (removeRoute fixStoreTriplicate 0 0).routeHeap.getD r [] =
              fixStoreTriplicate.routeHeap.getD r []))) :=
  ⟨⟨by decide, by decide, by decide⟩,
   removeRoute_recomputesDuplicates fixStoreTriplicate 0 0 (by decide) (by decide) (by decide)⟩

/-- C10: `removeEnvironment` never modifies the `routesTotal` counter, even when the
removed environment contains routes, whereas `addEnvironment`, `addRoute`,
`removeRoute`, `duplicateEnvironment` and `duplicateRoute` each adjust `routesTotal`
by the number of routes added or removed. -/
theorem removeEnvironment_preservesRoutesTotal (s : Store) (environmentIndex routeIndex : Nat)
    (henv : environmentIndex < s.environments.length) :
    (removeEnvironment s environmentIndex).routesTotal = s.routesTotal ∧
      (addEnvironment s).1.routesTotal = s.routesTotal + 1 ∧
      (addRoute s environmentIndex).1.routesTotal = s.routesTotal + 1 ∧
      (removeRoute s environmentIndex routeIndex).routesTotal = s.routesTotal - 1 ∧
      (duplicateEnvironment s environmentIndex).1.routesTotal =
        s.routesTotal + ((s.routeHeap.getD
          (s.environments.getD environmentIndex envObjDefault).routes []).length : Int) ∧
      (duplicateRoute s environmentIndex routeIndex).1.routesTotal = s.routesTotal + 1 :=
  ⟨rfl, rfl, rfl, rfl, rfl, rfl⟩

/-- Witness for C10 on the three-duplicate fixture. -/
theorem removeEnvironment_preservesRoutesTotal_witness :
    (0 : Nat) < fixStoreTriplicate.environments.length ∧
      ((removeEnvironment fixStoreTriplicate 0).routesTotal = fixStoreTriplicate.routesTotal ∧
        (addEnvironment fixStoreTriplicate).1.routesTotal = fixStoreTriplicate.routesTotal + 1 ∧
        (addRoute fixStoreTriplicate 0).1.routesTotal = fixStoreTriplicate.routesTotal + 1 ∧
        (removeRoute fixStoreTriplicate 0 0).routesTotal = fixStoreTriplicate.routesTotal - 1 ∧
        (duplicateEnvironment fixStoreTriplicate 0).1.routesTotal =
          fixStoreTriplicate.routesTotal + ((fixStoreTriplicate.routeHeap.getD
            (fixStoreTriplicate.environments.getD 0 envObjDefault).routes []).length : Int) ∧
        (duplicateRoute fixStoreTriplicate 0 0).1.routesTotal =
          fixStoreTriplicate.routesTotal + 1) :=
  ⟨by decide, removeEnvironment_preservesRoutesTotal fixStoreTriplicate 0 0 (by decide)⟩

theorem getD_map {α β : Type} (f : α → β) (l : List α) (i : Nat) (d : β) (d' : α)
    (h : i < l.length) :
    (l.map f).getD i d = f (l.getD i d') := by
  rw [List.getD_eq_getElem _ _ (by simpa using h), List.getElem_map,
      List.getD_eq_getElem _ _ h]

/-- C7: `cleanBeforeSave` returns one sanitized deep copy per live environment, in
order: every persistent field of the copy equals the live environment's, the copied
routes and custom headers are the materialised contents of the live heap cells, and
the four transient runtime fields (`running`, `instance`, `startedAt`, `needRestart`)
are absent from the copy by the very type `PersistedEnvironment` of its elements.  The
copy holds materialised lists instead of heap references, so no structure is shared
with the live store, and `cleanBeforeSave` is a pure read: the store is left
untouched. -/
theorem cleanBeforeSave_sanitizedDeepCopy (s : Store) (i : Nat)
    (hi : i < s.environments.length) :
    (cleanBeforeSave s).length = s.environments.length ∧
      (∀ c e, c = (cleanBeforeSave s).getD i persistedEnvironmentDefault →
        e = s.environments.getD i envObjDefault →
        (c.uuid = e.uuid ∧ c.name = e.name ∧ c.endpointPfx = e.endpointPfx ∧
          c.latency = e.latency ∧ c.port = e.port ∧ c.modifiedAt = e.modifiedAt ∧
          c.duplicates = e.duplicates ∧ c.proxyMode = e.proxyMode ∧
          c.proxyHost = e.proxyHost ∧ c.https = e.https ∧ c.cors = e.cors ∧
          c.routes.length = (s.routeHeap.getD e.routes []).length ∧
          (∀ k, k < (s.routeHeap.getD e.routes []).length →
            ∀ pr rr, pr = c.routes.getD k persistedRouteDefault →
              rr = (s.routeHeap.getD e.routes []).getD k routeObjDefault →
              (pr.uuid = rr.uuid ∧ pr.method = rr.method ∧
                pr.endpoint = rr.endpoint ∧ pr.body = rr.body ∧
                pr.latency = rr.latency ∧ pr.statusCode = rr.statusCode ∧
                pr.customHeaders = s.headerHeap.getD rr.customHeaders [] ∧
                pr.file = rr.file ∧ pr.duplicates = rr.duplicates)))) := by
  refine ⟨by simp [cleanBeforeSave], ?_⟩
  intro c e hc he
  subst he
  have hc' : c = cloneCleanEnvironment s (s.environments.getD i envObjDefault) := by
    rw [hc, cleanBeforeSave, getD_map _ _ _ _ envObjDefault hi]
  subst hc'
  refine ⟨rfl, rfl, rfl, rfl, rfl, rfl, rfl, rfl, rfl, rfl, rfl,
    by simp [cloneCleanEnvironment], ?_⟩
  intro k hk pr rr hpr hrr
  subst hrr
  have hpr' : pr = cloneRoute s ((s.routeHeap.getD
      (s.environments.getD i envObjDefault).routes []).getD k routeObjDefault) := by
    rw [hpr]
    show (List.map _ _).getD _ _ = _
    rw [getD_map _ _ _ _ routeObjDefault hk]
  subst hpr'
  exact ⟨rfl, rfl, rfl, rfl, rfl, rfl, rfl, rfl, rfl⟩

/-- Witness for C7 on the three-duplicate fixture, environment 0. -/
theorem cleanBeforeSave_sanitizedDeepCopy_witness :
    (0 : Nat) < fixStoreTriplicate.environments.length ∧
      ((cleanBeforeSave fixStoreTriplicate).length = fixStoreTriplicate.environments.length ∧
        (∀ c e, c = (cleanBeforeSave fixStoreTriplicate).getD 0 persistedEnvironmentDefault →
          e = fixStoreTriplicate.environments.getD 0 envObjDefault →
          (c.uuid = e.uuid ∧ c.name = e.name ∧ c.endpointPfx = e.endpointPfx ∧
            c.latency = e.latency ∧ c.port = e.port ∧ c.modifiedAt = e.modifiedAt ∧
            c.duplicates = e.duplicates ∧ c.proxyMode = e.proxyMode ∧
            c.proxyHost = e.proxyHost ∧ c.https = e.https ∧ c.cors = e.cors ∧
            c.routes.length = (fixStoreTriplicate.routeHeap.getD e.routes []).length ∧
            (∀ k, k < (fixStoreTriplicate.routeHeap.getD e.routes []).length →
              ∀ pr rr, pr = c.routes.getD k persistedRouteDefault →
                rr = (fixStoreTriplicate.routeHeap.getD e.routes []).getD k routeObjDefault →
                (pr.uuid = rr.uuid ∧ pr.method = rr.method ∧
                  pr.endpoint = rr.endpoint ∧ pr.body = rr.body ∧
                  pr.latency = rr.latency ∧ pr.statusCode = rr.statusCode ∧
                  pr.customHeaders = fixStoreTriplicate.headerHeap.getD rr.customHeaders [] ∧
                  pr.file = rr.file ∧ pr.duplicates = rr.duplicates))))) :=
  ⟨by decide, cleanBeforeSave_sanitizedDeepCopy fixStoreTriplicate 0 (by decide)⟩

theorem getD_append_last {α : Type} (l : List α) (x : α) (d : α) :
    (l ++ [x]).getD l.length d = x := by
  simp [List.getD_eq_getElem?_getD]

theorem getD_append_right_ofs {α : Type} (l l' : List α) (k : Nat) (d : α) :
    (l ++ l').getD (l.length + k) d = l'.getD k d := by
  simp [List.getD_eq_getElem?_getD, List.getElem?_append_right]

theorem genUuid_not_mem_allUuids (s : Store) (hub : UuidsBelow s) (m : Nat)
    (hm : s.counter ≤ m) : Uuid.gen m ∉ allUuids s := by
  intro hmem
  have h1 := hub _ hmem
  simp only [uuidBelow, decide_eq_true_eq] at h1
  omega

/-- `duplicateEnvironment`, written out: appended copy with fresh uuid and fresh route
and header cells (lodash `cloneDeep`), grown heaps, bumped counter and total. -/
theorem duplicateEnvironment_eq (s : Store) (environmentIndex : Nat) :
    duplicateEnvironment s environmentIndex =
      ({ s with
          headerHeap := s.headerHeap ++
            (s.routeHeap.getD
              (s.environments.getD environmentIndex envObjDefault).routes []).map
              (fun r => s.headerHeap.getD r.customHeaders []),
          routeHeap := s.routeHeap ++
            [(List.range (s.routeHeap.getD
                (s.environments.getD environmentIndex envObjDefault).routes []).length).map
              (fun k =>
                { (s.routeHeap.getD
                    (s.environments.getD environmentIndex envObjDefault).routes []).getD
                      k routeObjDefault with
                    customHeaders := s.headerHeap.length + k })],
          environments := s.environments ++
            [{ s.environments.getD environmentIndex envObjDefault with
                serverInstance := none, running := false, uuid := Uuid.gen s.counter,
                name := (s.environments.getD environmentIndex envObjDefault).name ++ " (copy)",
                startedAt := none, modifiedAt := none, duplicates := [],
                needRestart := false, routes := s.routeHeap.length }],
          routesTotal := s.routesTotal +
            ((s.routeHeap.getD
              (s.environments.getD environmentIndex envObjDefault).routes []).length : Int),
          counter := s.counter + 1 },
       s.environments.length) := rfl

/-- C8: `duplicateEnvironment` appends at the end a copy of the environment at the
given index with a fresh environment uuid (which cannot collide with any uuid already
present), the original name suffixed with " (copy)", `duplicates` and the four
transient runtime fields reset, all other environment fields preserved, and returns
the new index.  The copy's routes array is a fresh heap cell (distinct reference) whose
routes equal the originals except for pointing at fresh header cells with equal
contents, so copy and original share no mutable structure: overwriting any route of
the copy's cell leaves the original's cell unchanged, and vice versa. -/
theorem duplicateEnvironment_isolatedCopy (s : Store) (environmentIndex : Nat)
    (henv : environmentIndex < s.environments.length) (hwf : WF s) (hub : UuidsBelow s) :
    ∀ orig cell s2 copy copyCell,
      orig = s.environments.getD environmentIndex envObjDefault →
      cell = s.routeHeap.getD orig.routes [] →
      s2 = (duplicateEnvironment s environmentIndex).1 →
      copy = s2.environments.getD (duplicateEnvironment s environmentIndex).2 envObjDefault →
      copyCell = s2.routeHeap.getD copy.routes [] →
      ((duplicateEnvironment s environmentIndex).2 = s.environments.length ∧
        s2.environments.length = s.environments.length + 1 ∧
        s2.environments.take s.environments.length = s.environments ∧
        copy.uuid = Uuid.gen s.counter ∧ copy.uuid ∉ allUuids s ∧
        copy.name = orig.name ++ " (copy)" ∧
        copy.duplicates = [] ∧ copy.running = false ∧ copy.serverInstance = none ∧
        copy.startedAt = none ∧ copy.modifiedAt = none ∧ copy.needRestart = false ∧
        copy.port = orig.port ∧ copy.latency = orig.latency ∧
        copy.endpointPfx = orig.endpointPfx ∧ copy.proxyMode = orig.proxyMode ∧
        copy.proxyHost = orig.proxyHost ∧ copy.https = orig.https ∧ copy.cors = orig.cors ∧
        copy.routes ≠ orig.routes ∧
        s2.routeHeap.getD orig.routes [] = cell ∧
        copyCell.length = cell.length ∧
        (∀ k, k < cell.length →
          copyCell.getD k routeObjDefault =
            { cell.getD k routeObjDefault with
                customHeaders := (copyCell.getD k routeObjDefault).customHeaders } ∧
          s2.headerHeap.getD (copyCell.getD k routeObjDefault).customHeaders [] =
            s.headerHeap.getD (cell.getD k routeObjDefault).customHeaders [] ∧
          s.headerHeap.length ≤ (copyCell.getD k routeObjDefault).customHeaders) ∧
        (∀ k v, (s2.routeHeap.set copy.routes (copyCell.set k v)).getD orig.routes [] = cell) ∧
        (∀ k v, (s2.routeHeap.set orig.routes (cell.set k v)).getD copy.routes [] = copyCell)) := by
  intro orig cell s2 copy copyCell horig hcell hs2 hcopy hcc
  have henvmem : s.environments.getD environmentIndex envObjDefault ∈ s.environments := by
    rw [List.getD_eq_getElem _ _ henv]
    exact List.getElem_mem _
  have href : orig.routes < s.routeHeap.length := by
    rw [horig]; exact hwf.1 _ henvmem
  have hcopy' : copy =
      { orig with
          serverInstance := none, running := false, uuid := Uuid.gen s.counter,
          name := orig.name ++ " (copy)", startedAt := none, modifiedAt := none,
          duplicates := [], needRestart := false, routes := s.routeHeap.length } := by
    rw [hcopy, hs2, duplicateEnvironment_eq, horig]
    exact getD_append_last _ _ _
  have hcr : copy.routes = s.routeHeap.length := by rw [hcopy']
  have hccell : copyCell = (List.range cell.length).map
      (fun k => { cell.getD k routeObjDefault with
                    customHeaders := s.headerHeap.length + k }) := by
    rw [hcc, hs2, duplicateEnvironment_eq, hcr]
    show (s.routeHeap ++ [_]).getD s.routeHeap.length [] = _
    rw [getD_append_last, ← horig, ← hcell]
  have hrne : copy.routes ≠ orig.routes := by
    rw [hcr]; omega
  refine ⟨rfl, ?_, ?_, by rw [hcopy'], ?_, by rw [hcopy'], by rw [hcopy'], by rw [hcopy'],
    by rw [hcopy'], by rw [hcopy'], by rw [hcopy'], by rw [hcopy'], by rw [hcopy'],
    by rw [hcopy'], by rw [hcopy'], by rw [hcopy'], by rw [hcopy'], by rw [hcopy'],
    by rw [hcopy'], hrne, ?_, ?_, ?_, ?_, ?_⟩
  · rw [hs2, duplicateEnvironment_eq]
    simp
  · rw [hs2, duplicateEnvironment_eq]
    exact List.take_left _ _
  · rw [hcopy']
    exact genUuid_not_mem_allUuids s hub s.counter le_rfl
  · rw [hcell, hs2, duplicateEnvironment_eq, ← horig]
    exact List.getD_append _ _ _ _ href
  · rw [hccell]
    simp
  · intro k hk
    have h1 : copyCell.getD k routeObjDefault =
        { cell.getD k routeObjDefault with customHeaders := s.headerHeap.length + k } := by
      rw [hccell, getD_map_range _ _ _ _ hk]
    refine ⟨by rw [h1], ?_, ?_⟩
    · rw [h1, hs2, duplicateEnvironment_eq]
      show (s.headerHeap ++ _).getD (s.headerHeap.length + k) [] = _
      rw [getD_append_right_ofs, ← horig, ← hcell,
          getD_map _ _ _ _ routeObjDefault hk]
    · rw [h1]
      show s.headerHeap.length ≤ s.headerHeap.length + k
      omega
  · intro k v
    rw [getD_set_ne _ _ _ _ _ hrne, hcell, hs2, duplicateEnvironment_eq, ← horig]
    exact List.getD_append _ _ _ _ href
  · intro k v
    rw [getD_set_ne _ _ _ _ _ (fun h => hrne h.symm)]
    exact hcc.symm

/-- Witness for C8 on the three-duplicate fixture, duplicating environment 0. -/
theorem duplicateEnvironment_isolatedCopy_witness :
    ((0 : Nat) < fixStoreTriplicate.environments.length ∧ WF fixStoreTriplicate ∧
        UuidsBelow fixStoreTriplicate) ∧
      (∀ orig cell s2 copy copyCell,
        orig = fixStoreTriplicate.environments.getD 0 envObjDefault →
        cell = fixStoreTriplicate.routeHeap.getD orig.routes [] →
        s2 = (duplicateEnvironment fixStoreTriplicate 0).1 →
        copy = s2.environments.getD (duplicateEnvironment fixStoreTriplicate 0).2 envObjDefault →
        copyCell = s2.routeHeap.getD copy.routes [] →
        ((duplicateEnvironment fixStoreTriplicate 0).2 =
            fixStoreTriplicate.environments.length ∧
          s2.environments.length = fixStoreTriplicate.environments.length + 1 ∧
          s2.environments.take fixStoreTriplicate.environments.length =
            fixStoreTriplicate.environments ∧
          copy.uuid = Uuid.gen fixStoreTriplicate.counter ∧
          copy.uuid ∉ allUuids fixStoreTriplicate ∧
          copy.name = orig.name ++ " (copy)" ∧
          copy.duplicates = [] ∧ copy.running = false ∧ copy.serverInstance = none ∧
          copy.startedAt = none ∧ copy.modifiedAt = none ∧ copy.needRestart = false ∧
          copy.port = orig.port ∧ copy.latency = orig.latency ∧
          copy.endpointPfx = orig.endpointPfx ∧ copy.proxyMode = orig.proxyMode ∧
          copy.proxyHost = orig.proxyHost ∧ copy.https = orig.https ∧ copy.cors = orig.cors ∧
          copy.routes ≠ orig.routes ∧
          s2.routeHeap.getD orig.routes [] = cell ∧
          copyCell.length = cell.length ∧
          (∀ k, k < cell.length →
            copyCell.getD k routeObjDefault =
              { cell.getD k routeObjDefault with
                  customHeaders := (copyCell.getD k routeObjDefault).customHeaders } ∧
            s2.headerHeap.getD (copyCell.getD k routeObjDefault).customHeaders [] =
              fixStoreTriplicate.headerHeap.getD
                (cell.getD k routeObjDefault).customHeaders [] ∧
            fixStoreTriplicate.headerHeap.length ≤
              (copyCell.getD k routeObjDefault).customHeaders) ∧
          (∀ k v, (s2.routeHeap.set copy.routes (copyCell.set k v)).getD orig.routes [] =
            cell) ∧
          (∀ k v, (s2.routeHeap.set orig.routes (cell.set k v)).getD copy.routes [] =
            copyCell))) :=
  ⟨⟨by decide, by decide, by decide⟩,
   duplicateEnvironment_isolatedCopy fixStoreTriplicate 0 (by decide) (by decide) (by decide)⟩

/-- `addEnvironment`, written out. -/
theorem addEnvironment_eq (s : Store) :
    addEnvironment s =
      ({ s with
          headerHeap := s.headerHeap ++
            [[{ customHeadersSchema with uuid := Uuid.gen s.counter }]],
          routeHeap := s.routeHeap ++
            [[{ routeSchema with customHeaders := s.headerHeap.length }]],
          environments := s.environments ++
            [{ environmentSchema with
                uuid := Uuid.gen (s.counter + 1), name := "New environment", port := 3000,
                routes := s.routeHeap.length, modifiedAt := some s.now }],
          routesTotal := s.routesTotal + 1,
          counter := s.counter + 2 },
       s.environments.length) := rfl

/-- `addRoute`, written out. -/
theorem addRoute_eq (s : Store) (environmentIndex : Nat) :
    addRoute s environmentIndex =
      ({ s with
          headerHeap := s.headerHeap ++
            [[{ customHeadersSchema with uuid := Uuid.gen s.counter }]],
          routeHeap := s.routeHeap.set
            (s.environments.getD environmentIndex envObjDefault).routes
            ((s.routeHeap.getD
                (s.environments.getD environmentIndex envObjDefault).routes []) ++
              [{ routeSchema with customHeaders := s.headerHeap.length }]),
          routesTotal := s.routesTotal + 1,
          counter := s.counter + 1 },
       (s.routeHeap.getD
         (s.environments.getD environmentIndex envObjDefault).routes []).length) := rfl

/-- C3 counterexample: on the empty store, the single route of the environment created
by `addEnvironment` keeps the schema's empty uuid (it is `Object.assign({}, routeSchema,
{customHeaders: [...]})`: only the header and the environment receive `uuid()`), and the
route appended by a subsequent `addRoute` does too — refuting "fresh (non-empty, newly
generated) UUIDs on all three levels". -/
theorem addEnvironment_routeUuidEmpty_counterexample :
    (((addEnvironment fixStoreEmpty).1.routeHeap.getD
          ((addEnvironment fixStoreEmpty).1.environments.getD
            (addEnvironment fixStoreEmpty).2 envObjDefault).routes []).getD
        0 routeObjDefault).uuid = Uuid.empty ∧
      (((addRoute (addEnvironment fixStoreEmpty).1 0).1.routeHeap.getD
          ((addEnvironment fixStoreEmpty).1.environments.getD
            0 envObjDefault).routes []).getD 1 routeObjDefault).uuid = Uuid.empty ∧
      ¬ (((addEnvironment fixStoreEmpty).1.routeHeap.getD
            ((addEnvironment fixStoreEmpty).1.environments.getD
              (addEnvironment fixStoreEmpty).2 envObjDefault).routes []).getD
          0 routeObjDefault).uuid ≠ Uuid.empty := by
  refine ⟨by decide, by decide, by decide⟩

/-- C3 (amended): `addEnvironment` appends at the end a new environment containing one
default route which contains one default custom header and returns the new index; the
environment uuid and the header uuid are freshly generated — non-empty, distinct from
each other and from every uuid already in the store — but the route-level uuid is NOT
renewed: the route keeps the schema default, the empty uuid.  `addRoute` likewise
appends one default route whose header uuid is fresh and whose own uuid stays empty,
and returns its index. -/
theorem addEnvironment_addRoute_uuidLevels (s : Store) (environmentIndex : Nat)
    (hub : UuidsBelow s) (henv : environmentIndex < s.environments.length) (hwf : WF s) :
    ∀ s1 newEnv newCell s2 cell cell2,
      s1 = (addEnvironment s).1 →
      newEnv = s1.environments.getD (addEnvironment s).2 envObjDefault →
      newCell = s1.routeHeap.getD newEnv.routes [] →
      s2 = (addRoute s environmentIndex).1 →
      cell = s.routeHeap.getD (s.environments.getD environmentIndex envObjDefault).routes [] →
      cell2 = s2.routeHeap.getD (s.environments.getD environmentIndex envObjDefault).routes [] →
      ((addEnvironment s).2 = s.environments.length ∧
        s1.environments.take s.environments.length = s.environments ∧
        s1.environments.length = s.environments.length + 1 ∧
        newEnv.uuid = Uuid.gen (s.counter + 1) ∧
        newEnv.uuid ∉ allUuids s ∧ newEnv.uuid ≠ Uuid.empty ∧
        newEnv.name = "New environment" ∧ newEnv.port = 3000 ∧
        newCell = [{ routeSchema with customHeaders := s.headerHeap.length }] ∧
        (newCell.getD 0 routeObjDefault).uuid = Uuid.empty ∧
        s1.headerHeap.getD (newCell.getD 0 routeObjDefault).customHeaders [] =
          [{ customHeadersSchema with uuid := Uuid.gen s.counter }] ∧
        Uuid.gen s.counter ∉ allUuids s ∧ Uuid.gen s.counter ≠ Uuid.empty ∧
        Uuid.gen s.counter ≠ newEnv.uuid ∧
        (addRoute s environmentIndex).2 = cell.length ∧
        cell2 = cell ++ [{ routeSchema with customHeaders := s.headerHeap.length }] ∧
        (cell2.getD cell.length routeObjDefault).uuid = Uuid.empty ∧
        s2.headerHeap.getD (cell2.getD cell.length routeObjDefault).customHeaders [] =
          [{ customHeadersSchema with uuid := Uuid.gen s.counter }]) := by
  intro s1 newEnv newCell s2 cell cell2 hs1 hnewEnv hnewCell hs2 hcell hcell2
  have henvmem : s.environments.getD environmentIndex envObjDefault ∈ s.environments := by
    rw [List.getD_eq_getElem _ _ henv]
    exact List.getElem_mem _
  have href : (s.environments.getD environmentIndex envObjDefault).routes <
      s.routeHeap.length := hwf.1 _ henvmem
  have hne : newEnv = { environmentSchema with
      uuid := Uuid.gen (s.counter + 1), name := "New environment", port := 3000,
      routes := s.routeHeap.length, modifiedAt := some s.now } := by
    rw [hnewEnv, hs1, addEnvironment_eq]
    exact getD_append_last _ _ _
  have hnc : newCell = [{ routeSchema with customHeaders := s.headerHeap.length }] := by
    rw [hnewCell, hs1, addEnvironment_eq, hne]
    exact getD_append_last _ _ _
  have hc2 : cell2 = cell ++ [{ routeSchema with customHeaders := s.headerHeap.length }] := by
    rw [hcell2, hs2, addRoute_eq, hcell]
    exact getD_set_self _ _ _ _ href
  refine ⟨rfl, ?_, ?_, by rw [hne], ?_, by rw [hne]; exact fun h => Uuid.noConfusion h,
    by rw [hne], by rw [hne], hnc, by rw [hnc]; rfl, ?_, ?_,
    fun h => Uuid.noConfusion h, ?_, by rw [hcell, addRoute_eq], hc2, ?_, ?_⟩
  · rw [hs1, addEnvironment_eq]
    exact List.take_left _ _
  · rw [hs1, addEnvironment_eq]
    simp
  · rw [hne]
    exact genUuid_not_mem_allUuids s hub (s.counter + 1) (by omega)
  · rw [hnc]
    show s1.headerHeap.getD s.headerHeap.length [] = _
    rw [hs1, addEnvironment_eq]
    exact getD_append_last _ _ _
  · exact genUuid_not_mem_allUuids s hub s.counter le_rfl
  · rw [hne]
    intro h
    have := Uuid.gen.inj h
    omega
  · rw [hc2]
    rw [getD_append_last]
    rfl
  · rw [hc2, getD_append_last]
    show s2.headerHeap.getD s.headerHeap.length [] = _
    rw [hs2, addRoute_eq]
    exact getD_append_last _ _ _

/-- Witness for the amended C3 on the three-duplicate fixture. -/
theorem addEnvironment_addRoute_uuidLevels_witness :
    (UuidsBelow fixStoreTriplicate ∧ (0 : Nat) < fixStoreTriplicate.environments.length ∧
        WF fixStoreTriplicate) ∧
      (∀ s1 newEnv newCell s2 cell cell2,
        s1 = (addEnvironment fixStoreTriplicate).1 →
        newEnv = s1.environments.getD (addEnvironment fixStoreTriplicate).2 envObjDefault →
        newCell = s1.routeHeap.getD newEnv.routes [] →
        s2 = (addRoute fixStoreTriplicate 0).1 →
        cell = fixStoreTriplicate.routeHeap.getD
          (fixStoreTriplicate.environments.getD 0 envObjDefault).routes [] →
        cell2 = s2.routeHeap.getD
          (fixStoreTriplicate.environments.getD 0 envObjDefault).routes [] →
        ((addEnvironment fixStoreTriplicate).2 = fixStoreTriplicate.environments.length ∧
          s1.environments.take fixStoreTriplicate.environments.length =
            fixStoreTriplicate.environments ∧
          s1.environments.length = fixStoreTriplicate.environments.length + 1 ∧
          newEnv.uuid = Uuid.gen (fixStoreTriplicate.counter + 1) ∧
          newEnv.uuid ∉ allUuids fixStoreTriplicate ∧ newEnv.uuid ≠ Uuid.empty ∧
          newEnv.name = "New environment" ∧ newEnv.port = 3000 ∧
          newCell = [{ routeSchema with
            customHeaders := fixStoreTriplicate.headerHeap.length }] ∧
          (newCell.getD 0 routeObjDefault).uuid = Uuid.empty ∧
          s1.headerHeap.getD (newCell.getD 0 routeObjDefault).customHeaders [] =
            [{ customHeadersSchema with uuid := Uuid.gen fixStoreTriplicate.counter }] ∧
          Uuid.gen fixStoreTriplicate.counter ∉ allUuids fixStoreTriplicate ∧
          Uuid.gen fixStoreTriplicate.counter ≠ Uuid.empty ∧
          Uuid.gen fixStoreTriplicate.counter ≠ newEnv.uuid ∧
          (addRoute fixStoreTriplicate 0).2 = cell.length ∧
          cell2 = cell ++ [{ routeSchema with
            customHeaders := fixStoreTriplicate.headerHeap.length }] ∧
          (cell2.getD cell.length routeObjDefault).uuid = Uuid.empty ∧
          s2.headerHeap.getD (cell2.getD cell.length routeObjDefault).customHeaders [] =
            [{ customHeadersSchema with uuid := Uuid.gen fixStoreTriplicate.counter }])) :=
  ⟨⟨by decide, by decide, by decide⟩,
   addEnvironment_addRoute_uuidLevels fixStoreTriplicate 0 (by decide) (by decide) (by decide)⟩

theorem uuids_cloneCell (s : Store) (cell : List RouteObj) :
    ((List.range cell.length).map (fun k =>
        { cell.getD k routeObjDefault with
            customHeaders := s.headerHeap.length + k })).map (fun r => r.uuid) =
      cell.map (fun r => r.uuid) := by
  apply List.ext_getElem
  · simp
  · intro n h1 h2
    have hn : n < cell.length := by simpa using h2
    rw [List.getElem_map, List.getElem_map, List.getElem_map, List.getElem_range,
        List.getD_eq_getElem _ _ hn]

/-- C4 counterexample: starting from a store whose route uuids are pairwise distinct,
`duplicateEnvironment` yields a store whose collection-wide route uuids are NOT
pairwise distinct — the copied environment's routes keep the originals' uuids
(`cloneDeep`, no renewal). -/
theorem duplicateEnvironment_copiesRouteUuids_counterexample :
    (routeUuidsOf fixStoreTriplicate).Nodup ∧
      ¬ (routeUuidsOf (duplicateEnvironment fixStoreTriplicate 0).1).Nodup := by
  constructor
  · decide
  · decide

/-- C4 (amended): uuid freshness is an invariant only for the uuids the Mutation API
actually generates.  `duplicateEnvironment` copies its routes' uuids verbatim (the
copy's uuid sequence equals the original's), so collection-wide route-uuid
distinctness is not preserved; what is preserved is route-uuid distinctness within
each single environment, and the freshly generated environment uuid of the copy
cannot collide with any uuid already present in the store. -/
theorem duplicateEnvironment_routeUuidScope (s : Store) (environmentIndex : Nat)
    (henv : environmentIndex < s.environments.length) (hwf : WF s) (hub : UuidsBelow s)
    (hnd : RouteUuidsNodupPerEnv s) :
    RouteUuidsNodupPerEnv (duplicateEnvironment s environmentIndex).1 ∧
      ((duplicateEnvironment s environmentIndex).1.routeHeap.getD
          ((duplicateEnvironment s environmentIndex).1.environments.getD
            (duplicateEnvironment s environmentIndex).2 envObjDefault).routes []).map
          (fun r => r.uuid) =
        (s.routeHeap.getD
          (s.environments.getD environmentIndex envObjDefault).routes []).map
          (fun r => r.uuid) ∧
      ((duplicateEnvironment s environmentIndex).1.environments.getD
        (duplicateEnvironment s environmentIndex).2 envObjDefault).uuid ∉ allUuids s := by
  have henvmem : s.environments.getD environmentIndex envObjDefault ∈ s.environments := by
    rw [List.getD_eq_getElem _ _ henv]
    exact List.getElem_mem _
  have href : (s.environments.getD environmentIndex envObjDefault).routes <
      s.routeHeap.length := hwf.1 _ henvmem
  have hcopy : (duplicateEnvironment s environmentIndex).1.environments.getD
      (duplicateEnvironment s environmentIndex).2 envObjDefault =
      { s.environments.getD environmentIndex envObjDefault with
          serverInstance := none, running := false, uuid := Uuid.gen s.counter,
          name := (s.environments.getD environmentIndex envObjDefault).name ++ " (copy)",
          startedAt := none, modifiedAt := none, duplicates := [],
          needRestart := false, routes := s.routeHeap.length } := by
    rw [duplicateEnvironment_eq]
    exact getD_append_last _ _ _
  refine ⟨?_, ?_, ?_⟩
  · intro e he
    rw [duplicateEnvironment_eq] at he
    have he' : e ∈ s.environments ++
        [{ s.environments.getD environmentIndex envObjDefault with
            serverInstance := none, running := false, uuid := Uuid.gen s.counter,
            name := (s.environments.getD environmentIndex envObjDefault).name ++ " (copy)",
            startedAt := none, modifiedAt := none, duplicates := [],
            needRestart := false, routes := s.routeHeap.length }] := he
    rw [List.mem_append] at he'
    rcases he' with he2 | he2
    · rw [duplicateEnvironment_eq]
      show (((s.routeHeap ++ [_]).getD e.routes []).map
        (fun (r : RouteObj) => r.uuid)).Nodup
      rw [List.getD_append _ _ _ _ (hwf.1 _ he2)]
      exact hnd e he2
    · rw [List.mem_singleton] at he2
      subst he2
      rw [duplicateEnvironment_eq]
      show (((s.routeHeap ++ [_]).getD s.routeHeap.length []).map
        (fun (r : RouteObj) => r.uuid)).Nodup
      rw [getD_append_last, uuids_cloneCell]
      exact hnd _ henvmem
  · rw [hcopy, duplicateEnvironment_eq]
    show ((s.routeHeap ++ [_]).getD s.routeHeap.length []).map
      (fun (r : RouteObj) => r.uuid) = _
    rw [getD_append_last, uuids_cloneCell]
  · rw [hcopy]
    exact genUuid_not_mem_allUuids s hub s.counter le_rfl

/-- Witness for the amended C4 on the three-duplicate fixture. -/
theorem duplicateEnvironment_routeUuidScope_witness :
    ((0 : Nat) < fixStoreTriplicate.environments.length ∧ WF fixStoreTriplicate ∧
        UuidsBelow fixStoreTriplicate ∧ RouteUuidsNodupPerEnv fixStoreTriplicate) ∧
      (RouteUuidsNodupPerEnv (duplicateEnvironment fixStoreTriplicate 0).1 ∧
        ((duplicateEnvironment fixStoreTriplicate 0).1.routeHeap.getD
            ((duplicateEnvironment fixStoreTriplicate 0).1.environments.getD
              (duplicateEnvironment fixStoreTriplicate 0).2 envObjDefault).routes []).map
            (fun r => r.uuid) =
          (fixStoreTriplicate.routeHeap.getD
            (fixStoreTriplicate.environments.getD 0 envObjDefault).routes []).map
            (fun r => r.uuid) ∧
        ((duplicateEnvironment fixStoreTriplicate 0).1.environments.getD
          (duplicateEnvironment fixStoreTriplicate 0).2 envObjDefault).uuid ∉
            allUuids fixStoreTriplicate) :=
  ⟨⟨by decide, by decide, by decide, by decide⟩,
   duplicateEnvironment_routeUuidScope fixStoreTriplicate 0 (by decide) (by decide)
     (by decide) (by decide)⟩

/-- C1: when the stored checksum differs from the freshly computed checksum of the
payload, `importEnvironmentsFile` reports the wrong-checksum error and returns with
the store exactly as it was: no migration, no uuid renewal (the generator counter is
untouched), no append, no duplicate recompute. -/
theorem importEnvironmentsFile_checksumMismatch
    (migrations : List (PersistedEnvironment → PersistedEnvironment))
    (hash : List PersistedEnvironment → Nat) (s : Store) (importData : ExportData)
    (hne : hash importData.data ≠ importData.checksum) :
    importEnvironmentsFile migrations hash s importData =
      (s, Alert.importWrongChecksum) := by
  unfold importEnvironmentsFile
  have hv : verifyImportChecksum hash importData = false := by
    unfold verifyImportChecksum
    simpa using hne
  rw [hv]
  rfl

/-- Witness for C1: zero hash against stored checksum 1 on the empty store. -/
theorem importEnvironmentsFile_checksumMismatch_witness :
    fixHashZero fixImportBad.data ≠ fixImportBad.checksum ∧
      importEnvironmentsFile [] fixHashZero fixStoreEmpty fixImportBad =
        (fixStoreEmpty, Alert.importWrongChecksum) :=
  ⟨by decide,
   importEnvironmentsFile_checksumMismatch [] fixHashZero fixStoreEmpty fixImportBad
     (by decide)⟩

theorem renewHeaderUUIDs_counter_le : ∀ (hs : List CustomHeader) (c : Nat),
    c ≤ (renewHeaderUUIDs c hs).2
  | [], c => le_refl c
  | h :: t, c => by
    have h1 := renewHeaderUUIDs_counter_le t (genUuid c).2
    simp only [renewHeaderUUIDs, genUuid] at h1 ⊢
    omega

theorem renewRouteUUIDs_counter_le (c : Nat) (r : PersistedRoute) :
    c ≤ (renewRouteUUIDs c r).2 := by
  have h1 := renewHeaderUUIDs_counter_le r.customHeaders (genUuid c).2
  simp only [renewRouteUUIDs, genUuid] at h1 ⊢
  omega

theorem renewRoutesUUIDs_counter_le : ∀ (rs : List PersistedRoute) (c : Nat),
    c ≤ (renewRoutesUUIDs c rs).2
  | [], c => le_refl c
  | r :: t, c => by
    have h1 := renewRouteUUIDs_counter_le c r
    have h2 := renewRoutesUUIDs_counter_le t (renewRouteUUIDs c r).2
    simp only [renewRoutesUUIDs]
    omega

theorem renewEnvUUIDs_counter_le (c : Nat) (e : PersistedEnvironment) :
    c ≤ (renewEnvUUIDs c e).2 := by
  have h1 := renewRoutesUUIDs_counter_le e.routes (genUuid c).2
  simp only [renewEnvUUIDs, genUuid] at h1 ⊢
  omega

theorem renewUUIDs_length : ∀ (l : List PersistedEnvironment) (c : Nat),
    ((renewUUIDs c l).1).length = l.length
  | [], c => rfl
  | e :: t, c => by
    simp only [renewUUIDs, List.length_cons]
    rw [renewUUIDs_length t]

theorem renewHeaderUUIDs_erase : ∀ (hs : List CustomHeader) (c : Nat),
    ((renewHeaderUUIDs c hs).1).map (fun h => { h with uuid := Uuid.empty }) =
      hs.map (fun h => { h with uuid := Uuid.empty })
  | [], c => rfl
  | h :: t, c => by
    simp only [renewHeaderUUIDs, List.map_cons]
    rw [renewHeaderUUIDs_erase t]

theorem renewRouteUUIDs_erase (c : Nat) (r : PersistedRoute) :
    ((renewRouteUUIDs c r).1).eraseUuids = r.eraseUuids := by
  unfold renewRouteUUIDs PersistedRoute.eraseUuids
  simp only []
  rw [renewHeaderUUIDs_erase]

theorem renewRoutesUUIDs_erase : ∀ (rs : List PersistedRoute) (c : Nat),
    ((renewRoutesUUIDs c rs).1).map PersistedRoute.eraseUuids =
      rs.map PersistedRoute.eraseUuids
  | [], c => rfl
  | r :: t, c => by
    simp only [renewRoutesUUIDs, List.map_cons]
    rw [renewRouteUUIDs_erase, renewRoutesUUIDs_erase t]

theorem renewEnvUUIDs_erase (c : Nat) (e : PersistedEnvironment) :
    ((renewEnvUUIDs c e).1).eraseUuids = e.eraseUuids := by
  unfold renewEnvUUIDs PersistedEnvironment.eraseUuids
  simp only []
  rw [renewRoutesUUIDs_erase]

theorem renewUUIDs_erase : ∀ (l : List PersistedEnvironment) (c : Nat),
    ((renewUUIDs c l).1).map PersistedEnvironment.eraseUuids =
      l.map PersistedEnvironment.eraseUuids
  | [], c => rfl
  | e :: t, c => by
    simp only [renewUUIDs, List.map_cons]
    rw [renewEnvUUIDs_erase, renewUUIDs_erase t]

theorem renewHeaderUUIDs_uuid_ge : ∀ (hs : List CustomHeader) (c : Nat),
    ∀ h' ∈ (renewHeaderUUIDs c hs).1, ∃ n, h'.uuid = Uuid.gen n ∧ c ≤ n
  | [], c => by
    intro h' hh
    simp [renewHeaderUUIDs] at hh
  | h :: t, c => by
    intro h' hh
    simp only [renewHeaderUUIDs, List.mem_cons] at hh
    rcases hh with hh | hh
    · subst hh
      exact ⟨c, rfl, le_rfl⟩
    · obtain ⟨n, hn, hcn⟩ := renewHeaderUUIDs_uuid_ge t (genUuid c).2 h' hh
      refine ⟨n, hn, ?_⟩
      simp only [genUuid] at hcn
      omega

theorem renewRouteUUIDs_uuid_ge (c : Nat) (r : PersistedRoute) :
    ∀ u ∈ uuidsOfPersistedRoute (renewRouteUUIDs c r).1, ∃ n, u = Uuid.gen n ∧ c ≤ n := by
  intro u hu
  simp only [uuidsOfPersistedRoute, renewRouteUUIDs, List.mem_cons] at hu
  rcases hu with hu | hu
  · subst hu
    exact ⟨c, rfl, le_rfl⟩
  · rw [List.mem_map] at hu
    obtain ⟨h', hh', rfl⟩ := hu
    obtain ⟨n, hn, hcn⟩ := renewHeaderUUIDs_uuid_ge _ _ h' hh'
    refine ⟨n, hn, ?_⟩
    simp only [genUuid] at hcn
    omega

theorem renewRoutesUUIDs_uuid_ge : ∀ (rs : List PersistedRoute) (c : Nat),
    ∀ r' ∈ (renewRoutesUUIDs c rs).1, ∀ u ∈ uuidsOfPersistedRoute r',
      ∃ n, u = Uuid.gen n ∧ c ≤ n
  | [], c => by
    intro r' hr'
    simp [renewRoutesUUIDs] at hr'
  | r :: t, c => by
    intro r' hr' u hu
    simp only [renewRoutesUUIDs, List.mem_cons] at hr'
    rcases hr' with hr' | hr'
    · subst hr'
      exact renewRouteUUIDs_uuid_ge c r u hu
    · obtain ⟨n, hn, hcn⟩ := renewRoutesUUIDs_uuid_ge t (renewRouteUUIDs c r).2 r' hr' u hu
      have h2 := renewRouteUUIDs_counter_le c r
      exact ⟨n, hn, by omega⟩

theorem renewEnvUUIDs_uuid_ge (c : Nat) (e : PersistedEnvironment) :
    ∀ u ∈ uuidsOfPersisted (renewEnvUUIDs c e).1, ∃ n, u = Uuid.gen n ∧ c ≤ n := by
  intro u hu
  simp only [uuidsOfPersisted, renewEnvUUIDs, List.mem_cons] at hu
  rcases hu with hu | hu
  · subst hu
    exact ⟨c, rfl, le_rfl⟩
  · rw [List.mem_flatten] at hu
    obtain ⟨l', hl', hul⟩ := hu
    rw [List.mem_map] at hl'
    obtain ⟨r', hr', rfl⟩ := hl'
    obtain ⟨n, hn, hcn⟩ := renewRoutesUUIDs_uuid_ge _ _ r' hr' _ hul
    refine ⟨n, hn, ?_⟩
    simp only [genUuid] at hcn
    omega

theorem renewUUIDs_uuid_ge : ∀ (l : List PersistedEnvironment) (c : Nat),
    ∀ e' ∈ (renewUUIDs c l).1, ∀ u ∈ uuidsOfPersisted e', ∃ n, u = Uuid.gen n ∧ c ≤ n
  | [], c => by
    intro e' he'
    simp [renewUUIDs] at he'
  | e :: t, c => by
    intro e' he' u hu
    simp only [renewUUIDs, List.mem_cons] at he'
    rcases he' with he' | he'
    · subst he'
      exact renewEnvUUIDs_uuid_ge c e u hu
    · obtain ⟨n, hn, hcn⟩ := renewUUIDs_uuid_ge t (renewEnvUUIDs c e).2 e' he' u hu
      have h2 := renewEnvUUIDs_counter_le c e
      exact ⟨n, hn, by omega⟩

theorem pushOne_routeHeap_getD (s : Store) (p : PersistedEnvironment) (r : Nat)
    (d : List RouteObj) (h : r < s.routeHeap.length) :
    (pushPersistedEnvironment s p).routeHeap.getD r d = s.routeHeap.getD r d := by
  show (s.routeHeap ++ _).getD r d = _
  exact List.getD_append _ _ _ _ h

theorem pushOne_headerHeap_getD (s : Store) (p : PersistedEnvironment) (r : Nat)
    (d : List CustomHeader) (h : r < s.headerHeap.length) :
    (pushPersistedEnvironment s p).headerHeap.getD r d = s.headerHeap.getD r d := by
  show (s.headerHeap ++ _).getD r d = _
  exact List.getD_append _ _ _ _ h

theorem pushOne_environments_getD (s : Store) (p : PersistedEnvironment) (i : Nat)
    (d : EnvObj) (h : i < s.environments.length) :
    (pushPersistedEnvironment s p).environments.getD i d = s.environments.getD i d := by
  show (s.environments ++ [_]).getD i d = _
  exact List.getD_append _ _ _ _ h

theorem pushOne_environments_length (s : Store) (p : PersistedEnvironment) :
    (pushPersistedEnvironment s p).environments.length = s.environments.length + 1 := by
  show (s.environments ++ [_]).length = _
  simp

theorem pushOne_routeHeap_length (s : Store) (p : PersistedEnvironment) :
    (pushPersistedEnvironment s p).routeHeap.length = s.routeHeap.length + 1 := by
  show (s.routeHeap ++ [_]).length = _
  simp

theorem pushOne_headerHeap_length (s : Store) (p : PersistedEnvironment) :
    (pushPersistedEnvironment s p).headerHeap.length =
      s.headerHeap.length + p.routes.length := by
  show (s.headerHeap ++ _).length = _
  simp

theorem push_environments_length : ∀ (l : List PersistedEnvironment) (s : Store),
    (pushPersistedEnvironments s l).environments.length = s.environments.length + l.length
  | [], s => rfl
  | p :: t, s => by
    show (pushPersistedEnvironments (pushPersistedEnvironment s p) t).environments.length = _
    rw [push_environments_length t, pushOne_environments_length]
    simp only [List.length_cons]
    omega

theorem push_routeHeap_le : ∀ (l : List PersistedEnvironment) (s : Store),
    s.routeHeap.length ≤ (pushPersistedEnvironments s l).routeHeap.length
  | [], s => le_rfl
  | p :: t, s => by
    show s.routeHeap.length ≤
      (pushPersistedEnvironments (pushPersistedEnvironment s p) t).routeHeap.length
    have h1 := push_routeHeap_le t (pushPersistedEnvironment s p)
    rw [pushOne_routeHeap_length] at h1
    omega

theorem push_headerHeap_le : ∀ (l : List PersistedEnvironment) (s : Store),
    s.headerHeap.length ≤ (pushPersistedEnvironments s l).headerHeap.length
  | [], s => le_rfl
  | p :: t, s => by
    show s.headerHeap.length ≤
      (pushPersistedEnvironments (pushPersistedEnvironment s p) t).headerHeap.length
    have h1 := push_headerHeap_le t (pushPersistedEnvironment s p)
    rw [pushOne_headerHeap_length] at h1
    omega

theorem push_routeHeap_getD : ∀ (l : List PersistedEnvironment) (s : Store) (r : Nat)
    (d : List RouteObj), r < s.routeHeap.length →
    (pushPersistedEnvironments s l).routeHeap.getD r d = s.routeHeap.getD r d
  | [], s, r, d, h => rfl
  | p :: t, s, r, d, h => by
    show (pushPersistedEnvironments (pushPersistedEnvironment s p) t).routeHeap.getD r d = _
    rw [push_routeHeap_getD t _ r d (by rw [pushOne_routeHeap_length]; omega)]
    exact pushOne_routeHeap_getD s p r d h

theorem push_headerHeap_getD : ∀ (l : List PersistedEnvironment) (s : Store) (r : Nat)
    (d : List CustomHeader), r < s.headerHeap.length →
    (pushPersistedEnvironments s l).headerHeap.getD r d = s.headerHeap.getD r d
  | [], s, r, d, h => rfl
  | p :: t, s, r, d, h => by
    show (pushPersistedEnvironments (pushPersistedEnvironment s p) t).headerHeap.getD r d = _
    rw [push_headerHeap_getD t _ r d (by rw [pushOne_headerHeap_length]; omega)]
    exact pushOne_headerHeap_getD s p r d h

theorem push_environments_getD : ∀ (l : List PersistedEnvironment) (s : Store) (i : Nat)
    (d : EnvObj), i < s.environments.length →
    (pushPersistedEnvironments s l).environments.getD i d = s.environments.getD i d
  | [], s, i, d, h => rfl
  | p :: t, s, i, d, h => by
    show (pushPersistedEnvironments (pushPersistedEnvironment s p) t).environments.getD i d = _
    rw [push_environments_getD t _ i d (by rw [pushOne_environments_length]; omega)]
    exact pushOne_environments_getD s p i d h

theorem cloneRoute_pushOne (s : Store) (p : PersistedEnvironment) (r : RouteObj)
    (h : r.customHeaders < s.headerHeap.length) :
    cloneRoute (pushPersistedEnvironment s p) r = cloneRoute s r := by
  unfold cloneRoute
  rw [pushOne_headerHeap_getD s p _ _ h]

theorem cloneClean_pushOne (s : Store) (p : PersistedEnvironment) (e : EnvObj)
    (hwfe : WFEnv s e) :
    cloneCleanEnvironment (pushPersistedEnvironment s p) e = cloneCleanEnvironment s e := by
  unfold cloneCleanEnvironment
  rw [pushOne_routeHeap_getD s p _ _ hwfe.1]
  rw [List.map_congr_left (fun r hr => cloneRoute_pushOne s p r (hwfe.2 r hr))]

theorem WFEnv_pushOne (s : Store) (p : PersistedEnvironment) (e : EnvObj)
    (hwfe : WFEnv s e) : WFEnv (pushPersistedEnvironment s p) e := by
  constructor
  · rw [pushOne_routeHeap_length]
    have := hwfe.1
    omega
  · intro r hr
    rw [pushOne_routeHeap_getD s p _ _ hwfe.1] at hr
    rw [pushOne_headerHeap_length]
    have := hwfe.2 r hr
    omega

theorem cloneClean_push : ∀ (l : List PersistedEnvironment) (s : Store) (e : EnvObj),
    WFEnv s e →
    cloneCleanEnvironment (pushPersistedEnvironments s l) e = cloneCleanEnvironment s e
  | [], s, e, h => rfl
  | p :: t, s, e, h => by
    show cloneCleanEnvironment (pushPersistedEnvironments (pushPersistedEnvironment s p) t) e = _
    rw [cloneClean_push t _ e (WFEnv_pushOne s p e h), cloneClean_pushOne s p e h]

theorem pushOne_newEnv (s : Store) (p : PersistedEnvironment) :
    (pushPersistedEnvironment s p).environments.getD s.environments.length envObjDefault =
      { uuid := p.uuid, running := false, serverInstance := none, name := p.name,
        endpointPfx := p.endpointPfx, latency := p.latency, port := p.port,
        routes := s.routeHeap.length, startedAt := none, modifiedAt := p.modifiedAt,
        duplicates := p.duplicates, needRestart := false, proxyMode := p.proxyMode,
        proxyHost := p.proxyHost, https := p.https, cors := p.cors } := by
  show (s.environments ++ [_]).getD s.environments.length envObjDefault = _
  exact getD_append_last _ _ _

theorem pushOne_newCell (s : Store) (p : PersistedEnvironment) :
    (pushPersistedEnvironment s p).routeHeap.getD s.routeHeap.length [] =
      (List.range p.routes.length).map (fun k =>
        { uuid := (p.routes.getD k persistedRouteDefault).uuid,
          method := (p.routes.getD k persistedRouteDefault).method,
          endpoint := (p.routes.getD k persistedRouteDefault).endpoint,
          body := (p.routes.getD k persistedRouteDefault).body,
          latency := (p.routes.getD k persistedRouteDefault).latency,
          statusCode := (p.routes.getD k persistedRouteDefault).statusCode,
          customHeaders := s.headerHeap.length + k,
          file := (p.routes.getD k persistedRouteDefault).file,
          duplicates := (p.routes.getD k persistedRouteDefault).duplicates }) := by
  show (s.routeHeap ++ [_]).getD s.routeHeap.length [] = _
  exact getD_append_last _ _ _

theorem WFEnv_pushOne_new (s : Store) (p : PersistedEnvironment) :
    WFEnv (pushPersistedEnvironment s p)
      ((pushPersistedEnvironment s p).environments.getD s.environments.length
        envObjDefault) := by
  rw [pushOne_newEnv]
  constructor
  · show s.routeHeap.length < (pushPersistedEnvironment s p).routeHeap.length
    rw [pushOne_routeHeap_length]
    omega
  · intro r hr
    have hr' : r ∈ (pushPersistedEnvironment s p).routeHeap.getD s.routeHeap.length [] := hr
    rw [pushOne_newCell] at hr'
    rw [List.mem_map] at hr'
    obtain ⟨k, hk, rfl⟩ := hr' 
    rw [List.mem_range] at hk
    rw [pushOne_headerHeap_length]
    show s.headerHeap.length + k < s.headerHeap.length + p.routes.length
    omega

theorem pushOne_readback (s : Store) (p : PersistedEnvironment) :
    cloneCleanEnvironment (pushPersistedEnvironment s p)
      ((pushPersistedEnvironment s p).environments.getD s.environments.length
        envObjDefault) = p := by
  rw [pushOne_newEnv]
  unfold cloneCleanEnvironment
  have hroutes : ((pushPersistedEnvironment s p).routeHeap.getD s.routeHeap.length []).map
      (cloneRoute (pushPersistedEnvironment s p)) = p.routes := by
    rw [pushOne_newCell]
    apply List.ext_getElem
    · simp
    · intro n h1 h2
      have hn : n < p.routes.length := by simpa using h2
      rw [List.getElem_map, List.getElem_map, List.getElem_range]
      unfold cloneRoute
      have hh : (pushPersistedEnvironment s p).headerHeap.getD (s.headerHeap.length + n) [] =
          (p.routes.getD n persistedRouteDefault).customHeaders := by
        show (s.headerHeap ++ _).getD (s.headerHeap.length + n) [] = _
        rw [getD_append_right_ofs]
        exact getD_map _ _ _ _ persistedRouteDefault hn
      show ({ uuid := (p.routes.getD n persistedRouteDefault).uuid,
              method := (p.routes.getD n persistedRouteDefault).method,
              endpoint := (p.routes.getD n persistedRouteDefault).endpoint,
              body := (p.routes.getD n persistedRouteDefault).body,
              latency := (p.routes.getD n persistedRouteDefault).latency,
              statusCode := (p.routes.getD n persistedRouteDefault).statusCode,
              customHeaders := (pushPersistedEnvironment s p).headerHeap.getD
                (s.headerHeap.length + n) [],
              file := (p.routes.getD n persistedRouteDefault).file,
              duplicates := (p.routes.getD n persistedRouteDefault).duplicates } :
            PersistedRoute) = p.routes[n]
      rw [hh, List.getD_eq_getElem _ _ hn]
  rw [hroutes]

theorem push_readback : ∀ (l : List PersistedEnvironment) (s : Store) (k : Nat),
    k < l.length →
    cloneCleanEnvironment (pushPersistedEnvironments s l)
        ((pushPersistedEnvironments s l).environments.getD (s.environments.length + k)
          envObjDefault) =
      l.getD k persistedEnvironmentDefault
  | [], s, k, hk => absurd hk (by simp)
  | p :: t, s, k, hk => by
    show cloneCleanEnvironment (pushPersistedEnvironments (pushPersistedEnvironment s p) t)
      ((pushPersistedEnvironments (pushPersistedEnvironment s p) t).environments.getD
        (s.environments.length + k) envObjDefault) = _
    cases k with
    | zero =>
      rw [Nat.add_zero]
      rw [push_environments_getD t _ _ _ (by rw [pushOne_environments_length]; omega)]
      rw [cloneClean_push t _ _ (WFEnv_pushOne_new s p)]
      exact pushOne_readback s p
    | succ m =>
      have harith : s.environments.length + (m + 1) =
          (pushPersistedEnvironment s p).environments.length + m := by
        rw [pushOne_environments_length]
        omega
      rw [harith, push_readback t _ m (by simpa using hk)]
      rfl

theorem clear_checkEnvironmentsDuplicates (environments : List EnvObj) (j : Nat)
    (h : j < environments.length) :
    ((checkEnvironmentsDuplicates environments).getD j envObjDefault).clearDuplicates =
      (environments.getD j envObjDefault).clearDuplicates := by
  rw [getD_checkEnvironmentsDuplicates _ _ _ h]
  rfl

theorem migrateData_length :
    ∀ (migrations : List (PersistedEnvironment → PersistedEnvironment))
      (environments : List PersistedEnvironment),
      (migrateData migrations environments).length = environments.length
  | [], environments => rfl
  | m :: t, environments => by
    show (migrateData t (environments.map m)).length = _
    rw [migrateData_length t]
    simp

theorem eraseUuids_clearDuplicates (e : PersistedEnvironment) :
    e.clearDuplicates.eraseUuids = { e.eraseUuids with duplicates := [] } := rfl

theorem uuidsOfPersisted_clearDuplicates (e : PersistedEnvironment) :
    uuidsOfPersisted e.clearDuplicates = uuidsOfPersisted e := rfl

/-- `importEnvironmentsFile` on a matching checksum, written out: migrate, renew the
uuids from the current counter, push onto the live collection, recompute environment
duplicates, report success. -/
theorem importEnvironmentsFile_success_eq
    (migrations : List (PersistedEnvironment → PersistedEnvironment))
    (hash : List PersistedEnvironment → Nat) (s : Store) (importData : ExportData)
    (hchk : hash importData.data = importData.checksum) :
    importEnvironmentsFile migrations hash s importData =
      ({ pushPersistedEnvironments
          { s with counter := (renewUUIDs s.counter (migrateData migrations importData.data)).2 }
          (renewUUIDs s.counter (migrateData migrations importData.data)).1 with
            environments := checkEnvironmentsDuplicates
              (pushPersistedEnvironments
                { s with counter :=
                    (renewUUIDs s.counter (migrateData migrations importData.data)).2 }
                (renewUUIDs s.counter (migrateData migrations importData.data)).1).environments },
       Alert.importSuccess) := by
  unfold importEnvironmentsFile
  have hv : verifyImportChecksum hash importData = true := by
    unfold verifyImportChecksum
    simp [hchk]
  rw [hv]
  rfl

/-- C5: on an import whose checksum verifies, the migrations are applied to the
payload, then every uuid in it (environment, route, header) is unconditionally
replaced with a freshly generated one, then the result is appended at the end of the
live collection with no existing environment replaced or removed, and
environment-level duplicate detection is recomputed over the merged collection.
Concretely: the success alert is raised; the collection grows by exactly the imported
environments; every pre-existing environment is unchanged except for its recomputed
`duplicates` marker, and every pre-existing heap cell is untouched; the deep read-back
of appended environment `k` equals environment `k` of the migrated payload up to the
renewed uuids and the recomputed environment-duplicates marker (so migration ran
before renewal); every uuid of an appended environment was generated at or after the
pre-import counter and therefore collides with nothing already present; and every
environment's `duplicates` satisfies the port-collision characterisation of the merged
collection. -/
theorem importEnvironmentsFile_appendsRenewedMigrated
    (migrations : List (PersistedEnvironment → PersistedEnvironment))
    (hash : List PersistedEnvironment → Nat) (s : Store) (importData : ExportData)
    (hchk : hash importData.data = importData.checksum) (hub : UuidsBelow s) :
    ∀ s2, s2 = (importEnvironmentsFile migrations hash s importData).1 →
      ((importEnvironmentsFile migrations hash s importData).2 = Alert.importSuccess ∧
        s2.environments.length = s.environments.length + importData.data.length ∧
        (∀ i, i < s.environments.length →
          (s2.environments.getD i envObjDefault).clearDuplicates =
            (s.environments.getD i envObjDefault).clearDuplicates) ∧
        s.routeHeap.length ≤ s2.routeHeap.length ∧
        s.headerHeap.length ≤ s2.headerHeap.length ∧
        (∀ r, r < s.routeHeap.length → s2.routeHeap.getD r [] = s.routeHeap.getD r []) ∧
        (∀ r, r < s.headerHeap.length → s2.headerHeap.getD r [] = s.headerHeap.getD r []) ∧
        (∀ k, k < importData.data.length →
          ((cloneCleanEnvironment s2 (s2.environments.getD (s.environments.length + k)
              envObjDefault)).clearDuplicates.eraseUuids =
            ((migrateData migrations importData.data).getD k
              persistedEnvironmentDefault).clearDuplicates.eraseUuids ∧
            (∀ u ∈ uuidsOfPersisted (cloneCleanEnvironment s2
                (s2.environments.getD (s.environments.length + k) envObjDefault)),
              (∃ n, u = Uuid.gen n ∧ s.counter ≤ n) ∧ u ∉ allUuids s))) ∧
        (∀ i j, j ∈ (s2.environments.getD i envObjDefault).duplicates ↔
          (i < s2.environments.length ∧ j < s2.environments.length ∧ j ≠ i ∧
            (s2.environments.getD j envObjDefault).port =
              (s2.environments.getD i envObjDefault).port))) := by
  intro s2 hs2
  have hs2x : s2 = { (pushPersistedEnvironments { s with counter := (renewUUIDs s.counter (migrateData migrations importData.data)).2 } (renewUUIDs s.counter (migrateData migrations importData.data)).1) with environments := checkEnvironmentsDuplicates (pushPersistedEnvironments { s with counter := (renewUUIDs s.counter (migrateData migrations importData.data)).2 } (renewUUIDs s.counter (migrateData migrations importData.data)).1).environments } := by
    rw [hs2, importEnvironmentsFile_success_eq migrations hash s importData hchk]
  subst hs2x
  have hpushlen : (pushPersistedEnvironments { s with counter := (renewUUIDs s.counter (migrateData migrations importData.data)).2 } (renewUUIDs s.counter (migrateData migrations importData.data)).1).environments.length =
      s.environments.length + importData.data.length := by
    rw [push_environments_length]
    show s.environments.length + (renewUUIDs s.counter (migrateData migrations importData.data)).1.length = _
    rw [renewUUIDs_length, migrateData_length]
  refine ⟨by rw [importEnvironmentsFile_success_eq migrations hash s importData hchk],
    ?_, ?_, ?_, ?_, ?_, ?_, ?_, ?_⟩
  · show (checkEnvironmentsDuplicates (pushPersistedEnvironments { s with counter := (renewUUIDs s.counter (migrateData migrations importData.data)).2 } (renewUUIDs s.counter (migrateData migrations importData.data)).1).environments).length = _
    rw [length_checkEnvironmentsDuplicates, hpushlen]
  · intro i hi
    have hipush : i < (pushPersistedEnvironments { s with counter := (renewUUIDs s.counter (migrateData migrations importData.data)).2 } (renewUUIDs s.counter (migrateData migrations importData.data)).1).environments.length := by
      rw [hpushlen]
      omega
    show ((checkEnvironmentsDuplicates (pushPersistedEnvironments { s with counter := (renewUUIDs s.counter (migrateData migrations importData.data)).2 } (renewUUIDs s.counter (migrateData migrations importData.data)).1).environments).getD i
      envObjDefault).clearDuplicates = _
    rw [clear_checkEnvironmentsDuplicates _ i hipush,
        push_environments_getD (renewUUIDs s.counter (migrateData migrations importData.data)).1 { s with counter := (renewUUIDs s.counter (migrateData migrations importData.data)).2 } i envObjDefault hi]
  · show s.routeHeap.length ≤ (pushPersistedEnvironments { s with counter := (renewUUIDs s.counter (migrateData migrations importData.data)).2 } (renewUUIDs s.counter (migrateData migrations importData.data)).1).routeHeap.length
    exact push_routeHeap_le (renewUUIDs s.counter (migrateData migrations importData.data)).1 { s with counter := (renewUUIDs s.counter (migrateData migrations importData.data)).2 }
  · show s.headerHeap.length ≤ (pushPersistedEnvironments { s with counter := (renewUUIDs s.counter (migrateData migrations importData.data)).2 } (renewUUIDs s.counter (migrateData migrations importData.data)).1).headerHeap.length
    exact push_headerHeap_le (renewUUIDs s.counter (migrateData migrations importData.data)).1 { s with counter := (renewUUIDs s.counter (migrateData migrations importData.data)).2 }
  · intro r hr
    show (pushPersistedEnvironments { s with counter := (renewUUIDs s.counter (migrateData migrations importData.data)).2 } (renewUUIDs s.counter (migrateData migrations importData.data)).1).routeHeap.getD r [] = s.routeHeap.getD r []
    exact push_routeHeap_getD (renewUUIDs s.counter (migrateData migrations importData.data)).1 { s with counter := (renewUUIDs s.counter (migrateData migrations importData.data)).2 } r [] hr
  · intro r hr
    show (pushPersistedEnvironments { s with counter := (renewUUIDs s.counter (migrateData migrations importData.data)).2 } (renewUUIDs s.counter (migrateData migrations importData.data)).1).headerHeap.getD r [] = s.headerHeap.getD r []
    exact push_headerHeap_getD (renewUUIDs s.counter (migrateData migrations importData.data)).1 { s with counter := (renewUUIDs s.counter (migrateData migrations importData.data)).2 } r [] hr
  · intro k hk
    have hkm : k < (migrateData migrations importData.data).length := by
      rw [migrateData_length]
      exact hk
    have hkren : k < (renewUUIDs s.counter (migrateData migrations importData.data)).1.length := by
      rw [renewUUIDs_length]
      exact hkm
    have hidx : s.environments.length + k < (pushPersistedEnvironments { s with counter := (renewUUIDs s.counter (migrateData migrations importData.data)).2 } (renewUUIDs s.counter (migrateData migrations importData.data)).1).environments.length := by
      rw [hpushlen]
      omega
    have hread : cloneCleanEnvironment (pushPersistedEnvironments { s with counter := (renewUUIDs s.counter (migrateData migrations importData.data)).2 } (renewUUIDs s.counter (migrateData migrations importData.data)).1)
        ((pushPersistedEnvironments { s with counter := (renewUUIDs s.counter (migrateData migrations importData.data)).2 } (renewUUIDs s.counter (migrateData migrations importData.data)).1).environments.getD (s.environments.length + k) envObjDefault) =
        (renewUUIDs s.counter (migrateData migrations importData.data)).1.getD k persistedEnvironmentDefault :=
      push_readback (renewUUIDs s.counter (migrateData migrations importData.data)).1 { s with counter := (renewUUIDs s.counter (migrateData migrations importData.data)).2 } k hkren
    have hcc : (cloneCleanEnvironment { (pushPersistedEnvironments { s with counter := (renewUUIDs s.counter (migrateData migrations importData.data)).2 } (renewUUIDs s.counter (migrateData migrations importData.data)).1) with environments := checkEnvironmentsDuplicates (pushPersistedEnvironments { s with counter := (renewUUIDs s.counter (migrateData migrations importData.data)).2 } (renewUUIDs s.counter (migrateData migrations importData.data)).1).environments }
        (({ (pushPersistedEnvironments { s with counter := (renewUUIDs s.counter (migrateData migrations importData.data)).2 } (renewUUIDs s.counter (migrateData migrations importData.data)).1) with environments := checkEnvironmentsDuplicates (pushPersistedEnvironments { s with counter := (renewUUIDs s.counter (migrateData migrations importData.data)).2 } (renewUUIDs s.counter (migrateData migrations importData.data)).1).environments }).environments.getD (s.environments.length + k)
          envObjDefault)).clearDuplicates =
        ((renewUUIDs s.counter (migrateData migrations importData.data)).1.getD k persistedEnvironmentDefault).clearDuplicates := by
      show (cloneCleanEnvironment { (pushPersistedEnvironments { s with counter := (renewUUIDs s.counter (migrateData migrations importData.data)).2 } (renewUUIDs s.counter (migrateData migrations importData.data)).1) with environments := checkEnvironmentsDuplicates (pushPersistedEnvironments { s with counter := (renewUUIDs s.counter (migrateData migrations importData.data)).2 } (renewUUIDs s.counter (migrateData migrations importData.data)).1).environments }
        ((checkEnvironmentsDuplicates (pushPersistedEnvironments { s with counter := (renewUUIDs s.counter (migrateData migrations importData.data)).2 } (renewUUIDs s.counter (migrateData migrations importData.data)).1).environments).getD
          (s.environments.length + k) envObjDefault)).clearDuplicates = _
      rw [getD_checkEnvironmentsDuplicates _ _ _ hidx, ← hread]
      rfl
    have e1 : ((renewUUIDs s.counter (migrateData migrations importData.data)).1.map PersistedEnvironment.eraseUuids).getD k
        (PersistedEnvironment.eraseUuids persistedEnvironmentDefault) =
        PersistedEnvironment.eraseUuids ((renewUUIDs s.counter (migrateData migrations importData.data)).1.getD k persistedEnvironmentDefault) :=
      getD_map _ _ _ _ _ hkren
    have e2 : ((migrateData migrations importData.data).map PersistedEnvironment.eraseUuids).getD k
        (PersistedEnvironment.eraseUuids persistedEnvironmentDefault) =
        PersistedEnvironment.eraseUuids ((migrateData migrations importData.data).getD k persistedEnvironmentDefault) :=
      getD_map _ _ _ _ _ hkm
    have hErase : PersistedEnvironment.eraseUuids
        ((renewUUIDs s.counter (migrateData migrations importData.data)).1.getD k persistedEnvironmentDefault) =
        PersistedEnvironment.eraseUuids ((migrateData migrations importData.data).getD k persistedEnvironmentDefault) := by
      rw [← e1, ← e2, renewUUIDs_erase]
    constructor
    · rw [hcc, eraseUuids_clearDuplicates, eraseUuids_clearDuplicates, hErase]
    · intro u hu
      rw [← uuidsOfPersisted_clearDuplicates, hcc, uuidsOfPersisted_clearDuplicates] at hu
      have hmem : (renewUUIDs s.counter (migrateData migrations importData.data)).1.getD k persistedEnvironmentDefault ∈ (renewUUIDs s.counter (migrateData migrations importData.data)).1 := by
        rw [List.getD_eq_getElem _ _ hkren]
        exact List.getElem_mem _
      obtain ⟨n, hn, hcn⟩ := renewUUIDs_uuid_ge (migrateData migrations importData.data) s.counter _ hmem u hu
      refine ⟨⟨n, hn, hcn⟩, ?_⟩
      rw [hn]
      exact genUuid_not_mem_allUuids s hub n hcn
  · intro i j
    show j ∈ ((checkEnvironmentsDuplicates (pushPersistedEnvironments { s with counter := (renewUUIDs s.counter (migrateData migrations importData.data)).2 } (renewUUIDs s.counter (migrateData migrations importData.data)).1).environments).getD i
      envObjDefault).duplicates ↔ _
    by_cases hi : i < (pushPersistedEnvironments { s with counter := (renewUUIDs s.counter (migrateData migrations importData.data)).2 } (renewUUIDs s.counter (migrateData migrations importData.data)).1).environments.length
    · rw [mem_duplicates_checkEnvironmentsDuplicates _ i j hi]
      constructor
      · rintro ⟨hj, hne, hp⟩
        refine ⟨?_, ?_, hne, ?_⟩
        · show i < (checkEnvironmentsDuplicates (pushPersistedEnvironments { s with counter := (renewUUIDs s.counter (migrateData migrations importData.data)).2 } (renewUUIDs s.counter (migrateData migrations importData.data)).1).environments).length
          rw [length_checkEnvironmentsDuplicates]
          exact hi
        · show j < (checkEnvironmentsDuplicates (pushPersistedEnvironments { s with counter := (renewUUIDs s.counter (migrateData migrations importData.data)).2 } (renewUUIDs s.counter (migrateData migrations importData.data)).1).environments).length
          rw [length_checkEnvironmentsDuplicates]
          exact hj
        · show ((checkEnvironmentsDuplicates (pushPersistedEnvironments { s with counter := (renewUUIDs s.counter (migrateData migrations importData.data)).2 } (renewUUIDs s.counter (migrateData migrations importData.data)).1).environments).getD j
            envObjDefault).port = _
          rw [port_checkEnvironmentsDuplicates _ j hj,
              port_checkEnvironmentsDuplicates _ i hi]
          exact hp
      · rintro ⟨hi2, hj2, hne, hp⟩
        have hj : j < (pushPersistedEnvironments { s with counter := (renewUUIDs s.counter (migrateData migrations importData.data)).2 } (renewUUIDs s.counter (migrateData migrations importData.data)).1).environments.length := by
          have : j < (checkEnvironmentsDuplicates (pushPersistedEnvironments { s with counter := (renewUUIDs s.counter (migrateData migrations importData.data)).2 } (renewUUIDs s.counter (migrateData migrations importData.data)).1).environments).length := hj2
          rwa [length_checkEnvironmentsDuplicates] at this
        refine ⟨hj, hne, ?_⟩
        have hp' : ((checkEnvironmentsDuplicates (pushPersistedEnvironments { s with counter := (renewUUIDs s.counter (migrateData migrations importData.data)).2 } (renewUUIDs s.counter (migrateData migrations importData.data)).1).environments).getD j
            envObjDefault).port =
            ((checkEnvironmentsDuplicates (pushPersistedEnvironments { s with counter := (renewUUIDs s.counter (migrateData migrations importData.data)).2 } (renewUUIDs s.counter (migrateData migrations importData.data)).1).environments).getD i
              envObjDefault).port := hp
        rw [port_checkEnvironmentsDuplicates _ j hj,
            port_checkEnvironmentsDuplicates _ i hi] at hp'
        exact hp'
    · have hlen : (checkEnvironmentsDuplicates (pushPersistedEnvironments { s with counter := (renewUUIDs s.counter (migrateData migrations importData.data)).2 } (renewUUIDs s.counter (migrateData migrations importData.data)).1).environments).length ≤ i := by
        rw [length_checkEnvironmentsDuplicates]
        omega
      rw [List.getD_eq_default _ _ hlen]
      constructor
      · intro h
        exact absurd h (List.not_mem_nil j)
      · rintro ⟨hi2, _, _, _⟩
        have hi3 : i < (checkEnvironmentsDuplicates (pushPersistedEnvironments { s with counter := (renewUUIDs s.counter (migrateData migrations importData.data)).2 } (renewUUIDs s.counter (migrateData migrations importData.data)).1).environments).length := hi2
        rw [length_checkEnvironmentsDuplicates] at hi3
        omega

/-- Witness for C5: a valid single-environment import into the three-duplicate
fixture. -/
theorem importEnvironmentsFile_appendsRenewedMigrated_witness :
    (fixHashZero fixImportGood.data = fixImportGood.checksum ∧
        UuidsBelow fixStoreTriplicate) ∧
      (∀ s2, s2 = (importEnvironmentsFile [] fixHashZero fixStoreTriplicate
          fixImportGood).1 →
        ((importEnvironmentsFile [] fixHashZero fixStoreTriplicate fixImportGood).2 =
            Alert.importSuccess ∧
          s2.environments.length =
            fixStoreTriplicate.environments.length + fixImportGood.data.length ∧
          (∀ i, i < fixStoreTriplicate.environments.length →
            (s2.environments.getD i envObjDefault).clearDuplicates =
              (fixStoreTriplicate.environments.getD i envObjDefault).clearDuplicates) ∧
          fixStoreTriplicate.routeHeap.length ≤ s2.routeHeap.length ∧
          fixStoreTriplicate.headerHeap.length ≤ s2.headerHeap.length ∧
          (∀ r, r < fixStoreTriplicate.routeHeap.length →
            s2.routeHeap.getD r [] = fixStoreTriplicate.routeHeap.getD r []) ∧
          (∀ r, r < fixStoreTriplicate.headerHeap.length →
            s2.headerHeap.getD r [] = fixStoreTriplicate.headerHeap.getD r []) ∧
          (∀ k, k < fixImportGood.data.length →
            ((cloneCleanEnvironment s2 (s2.environments.getD
                (fixStoreTriplicate.environments.length + k)
                envObjDefault)).clearDuplicates.eraseUuids =
              ((migrateData [] fixImportGood.data).getD k
                persistedEnvironmentDefault).clearDuplicates.eraseUuids ∧
              (∀ u ∈ uuidsOfPersisted (cloneCleanEnvironment s2
                  (s2.environments.getD (fixStoreTriplicate.environments.length + k)
                    envObjDefault)),
                (∃ n, u = Uuid.gen n ∧ fixStoreTriplicate.counter ≤ n) ∧
                  u ∉ allUuids fixStoreTriplicate))) ∧
          (∀ i j, j ∈ (s2.environments.getD i envObjDefault).duplicates ↔
            (i < s2.environments.length ∧ j < s2.environments.length ∧ j ≠ i ∧
              (s2.environments.getD j envObjDefault).port =
                (s2.environments.getD i envObjDefault).port)))) :=
  ⟨⟨by decide, by decide⟩,
   importEnvironmentsFile_appendsRenewedMigrated [] fixHashZero fixStoreTriplicate
     fixImportGood (by decide) (by decide)⟩

end EnvironmentsService
